import Mathlib

set_option maxHeartbeats 1000000

/-
  Shallow embedding of the DFSPH pressure solver
  (src/src/solver/pressure/dfsph_solver.rs) over exact rationals.

  The scalar type N is modelled by the rationals; vectors of dimension DIM
  are functions from Fin DIM to the rationals.  Rust slices become lists,
  indexed with List.getD so that every read is total; out-of-range reads
  return the zero value or an empty structure (the Rust code would panic
  on such reads, so all claims are stated for in-range indices).  The
  runtime assertions of the source (which panic on invariant violations)
  are not modelled; no theorem below depends on them.  The in-place
  mutation of the solver buffers and of the boundary force accumulators
  becomes explicit state passing, in the same (serial) order as the source
  loops.
-/

namespace DF

/-- Vectors of dimension DIM with rational coordinates, mirroring the
    Vector type of the math module. -/
abbrev Vector (DIM : ℕ) := Fin DIM → ℚ

/-- Dot product of two vectors. -/
def vdot {DIM : ℕ} (v w : Vector DIM) : ℚ := ∑ k, v k * w k

/-- Squared norm of a vector. -/
def normSq {DIM : ℕ} (v : Vector DIM) : ℚ := vdot v v

/-- Scalar multiplication written with an explicit coefficient, matching
    the source expression grad * coeff. -/
def vscale {DIM : ℕ} (q : ℚ) (v : Vector DIM) : Vector DIM := fun k => q * v k

/-- One contact of the neighborhood graph: particle (i_model, i) sees
    particle (j_model, j) with kernel weight and kernel gradient. -/
structure Contact (DIM : ℕ) where
  i_model : ℕ
  i : ℕ
  j_model : ℕ
  j : ℕ
  weight : ℚ
  gradient : Vector DIM
deriving DecidableEq

/-- A fluid object: per-particle positions, velocities, accelerations and
    masses, plus the rest density shared by the particles of this fluid. -/
structure Fluid (DIM : ℕ) where
  positions : List (Vector DIM)
  velocities : List (Vector DIM)
  accelerations : List (Vector DIM)
  masses : List ℚ
  density0 : ℚ
deriving DecidableEq

instance {DIM : ℕ} : Inhabited (Fluid DIM) := ⟨⟨[], [], [], [], 0⟩⟩

/-- Number of particles of a fluid. -/
def Fluid.num_particles {DIM : ℕ} (f : Fluid DIM) : ℕ := f.positions.length

/-- Mass of the i-th particle of a fluid. -/
def Fluid.particle_mass {DIM : ℕ} (f : Fluid DIM) (i : ℕ) : ℚ := f.masses.getD i 0

/-- Replace the n-th element of a list by f applied to it; other elements
    and out-of-range indices are untouched. -/
def listModify {α : Type} (f : α → α) : ℕ → List α → List α
  | _, [] => []
  | 0, x :: xs => f x :: xs
  | n + 1, x :: xs => x :: listModify f n xs

/-- A boundary object: per-particle velocities, kernel-sum volumes, and
    the force accumulation sink written through apply_force. -/
structure Boundary (DIM : ℕ) where
  velocities : List (Vector DIM)
  volumes : List ℚ
  forces : List (Vector DIM)
deriving DecidableEq

instance {DIM : ℕ} : Inhabited (Boundary DIM) := ⟨⟨[], [], []⟩⟩

/-- The thread-safe force sink of a boundary: accumulate f onto the force
    of particle j. -/
def Boundary.apply_force {DIM : ℕ} (b : Boundary DIM) (j : ℕ) (f : Vector DIM) :
    Boundary DIM :=
  { b with forces := listModify (fun g => g + f) j b.forces }

/-- Deposit a force on particle j of boundary bmodel inside a boundary list. -/
def applyForceAt {DIM : ℕ} (bs : List (Boundary DIM)) (bmodel j : ℕ)
    (f : Vector DIM) : List (Boundary DIM) :=
  listModify (fun b => b.apply_force j f) bmodel bs

/-- The external timestep manager, as seen from the solver: it exposes the
    current timestep dt and its precomputed reciprocal inv_dt as two opaque
    scalars.  The solver never computes one from the other, so they are two
    independent fields here; claims that speak about 1/dt take the
    hypothesis inv_dt = 1/dt. -/
structure TimestepManager where
  dt : ℚ
  inv_dt : ℚ
deriving DecidableEq

/-- The contact lists: for fluid (or boundary) a and its particle i,
    pcs cs a i is the list of contacts of that particle. -/
abbrev Contacts (DIM : ℕ) := List (List (List (Contact DIM)))

/-- Contacts of particle i of model a (ParticlesContacts::particle_contacts). -/
def pcs {DIM : ℕ} (cs : Contacts DIM) (a i : ℕ) : List (Contact DIM) :=
  (cs.getD a []).getD i []

/-- Read entry (a, i) of a per-fluid buffer, with default d. -/
def lookup2 {α : Type} (xs : List (List α)) (a i : ℕ) (d : α) : α :=
  (xs.getD a []).getD i d

/-- The DFSPH solver state: configuration options and the five per-fluid
    scratch buffers. -/
structure DFSPHSolver (DIM : ℕ) where
  min_pressure_iter : ℕ
  max_pressure_iter : ℕ
  max_density_error : ℚ
  min_divergence_iter : ℕ
  max_divergence_iter : ℕ
  max_divergence_error : ℚ
  min_neighbors_for_divergence_solve : ℕ
  alphas : List (List ℚ)
  densities : List (List ℚ)
  predicted_densities : List (List ℚ)
  divergences : List (List ℚ)
  velocity_changes : List (List (Vector DIM))
deriving DecidableEq

/-- DFSPHSolver::new. -/
def DFSPHSolver.new (DIM : ℕ) : DFSPHSolver DIM :=
  { min_pressure_iter := 1
    max_pressure_iter := 50
    max_density_error := 5 / 100
    min_divergence_iter := 1
    max_divergence_iter := 50
    max_divergence_error := 1 / 10
    min_neighbors_for_divergence_solve := if DIM = 2 then 6 else 20
    alphas := []
    densities := []
    predicted_densities := []
    divergences := []
    velocity_changes := [] }

/-- One step of the per-fluid error reduction shared by the predicted
    density and divergence computations: sum a per-particle error over the
    buffer, then fold it into the running maximum, guarded by a nonzero
    particle count (par_reduce_sum followed by the guarded max). -/
def errStep (g : ℕ → ℕ → ℚ) (np : ℕ → ℕ) (len : ℕ) (m : ℚ) (a : ℕ) : ℚ :=
  if np a ≠ 0 then max m ((((List.range len).map (g a)).sum) / (np a : ℚ)) else m

/-- The per-fluid buffer overwrite pattern shared by the buffer-writing
    loops of the solver: for each fluid id a below n, replace buffer a by
    the per-particle values f a i, for i over the buffer length
    (par_iter_mut + enumerate + for_each). -/
def overwriteFold {α : Type} (f : ℕ → ℕ → α) (n : ℕ) (bufs : List (List α)) :
    List (List α) :=
  (List.range n).foldl
    (fun bs a => bs.set a ((List.range ((bs.getD a []).length)).map (f a))) bufs

/-- The buffer overwrite pattern fused with the error reduction, as in
    compute_predicted_densities and compute_divergences: per fluid a the
    buffer is rewritten with f a and the error mean of g a is folded into
    the running maximum. -/
def overwriteFoldErr {α : Type} (f : ℕ → ℕ → α) (g : ℕ → ℕ → ℚ) (np : ℕ → ℕ)
    (n : ℕ) (bufs : List (List α)) : List (List α) × ℚ :=
  (List.range n).foldl
    (fun acc a =>
      let len := (acc.1.getD a []).length
      (acc.1.set a ((List.range len).map (f a)), errStep g np len acc.2 a))
    (bufs, 0)

/-- Maximum of a list of rationals, 0 when the list is empty. -/
def listMax : List ℚ → ℚ
  | [] => 0
  | x :: xs => xs.foldl max x

/-- Predicted density of particle (a, i): its current density plus dt
    times the SPH velocity divergence, following the two contact loops of
    compute_predicted_densities. -/
def predDensity1 {DIM : ℕ} (t : TimestepManager) (ffC fbC : Contacts DIM)
    (fluids : List (Fluid DIM)) (bs : List (Boundary DIM))
    (dens : List (List ℚ)) (vcs : List (List (Vector DIM))) (a i : ℕ) : ℚ :=
  let fluid_i := fluids.getD a default
  let d1 := (pcs ffC a i).foldl
    (fun acc c =>
      let fluid_j := fluids.getD c.j_model default
      let vi := fluid_i.velocities.getD c.i 0 + lookup2 vcs c.i_model c.i 0
      let vj := fluid_j.velocities.getD c.j 0 + lookup2 vcs c.j_model c.j 0
      acc + fluid_j.particle_mass c.j * vdot (vi - vj) c.gradient) 0
  let d2 := (pcs fbC a i).foldl
    (fun acc c =>
      let vi := fluid_i.velocities.getD c.i 0 + lookup2 vcs c.i_model c.i 0
      let bj := bs.getD c.j_model default
      let vj := bj.velocities.getD c.j 0
      acc + bj.volumes.getD c.j 0 * fluid_i.density0 * vdot (vi - vj) c.gradient) d1
  lookup2 dens a i 0 + d2 * t.dt

/-- Per-particle scaled density error as computed inside
    compute_predicted_densities: zero below the rest density, otherwise
    predicted over rest density minus one. -/
def predError1 {DIM : ℕ} (t : TimestepManager) (ffC fbC : Contacts DIM)
    (fluids : List (Fluid DIM)) (bs : List (Boundary DIM))
    (dens : List (List ℚ)) (vcs : List (List (Vector DIM))) (a i : ℕ) : ℚ :=
  let fluid_i := fluids.getD a default
  let pd := predDensity1 t ffC fbC fluids bs dens vcs a i
  if pd < fluid_i.density0 then 0 else pd / fluid_i.density0 - 1

/-- DFSPHSolver::compute_predicted_densities: rewrite the predicted
    density buffer of every fluid and return the largest per-fluid mean
    scaled density error. -/
def compute_predicted_densities {DIM : ℕ} (t : TimestepManager)
    (ffC fbC : Contacts DIM) (fluids : List (Fluid DIM)) (bs : List (Boundary DIM))
    (s : DFSPHSolver DIM) : DFSPHSolver DIM × ℚ :=
  let r := overwriteFoldErr
    (predDensity1 t ffC fbC fluids bs s.densities s.velocity_changes)
    (predError1 t ffC fbC fluids bs s.densities s.velocity_changes)
    (fun a => (fluids.getD a default).num_particles)
    fluids.length s.predicted_densities
  ({ s with predicted_densities := r.1 }, r.2)

/-- Gradient sum and squared gradient sum of compute_alphas for particle
    (a, i): fluid contacts weighted by the neighbor mass, boundary
    contacts by the neighbor volume times the rest density. -/
def alphaGrads {DIM : ℕ} (ffC fbC : Contacts DIM) (fluids : List (Fluid DIM))
    (bs : List (Boundary DIM)) (a i : ℕ) : Vector DIM × ℚ :=
  let fluid_i := fluids.getD a default
  let p1 := (pcs ffC a i).foldl
    (fun p c =>
      let grad_i := vscale ((fluids.getD c.j_model default).particle_mass c.j) c.gradient
      (p.1 + grad_i, p.2 + normSq grad_i)) ((0 : Vector DIM), (0 : ℚ))
  (pcs fbC a i).foldl
    (fun p c =>
      let grad_i := vscale ((bs.getD c.j_model default).volumes.getD c.j 0 * fluid_i.density0)
        c.gradient
      (p.1 + grad_i, p.2 + normSq grad_i)) p1

/-- The local Gram denominator of compute_alphas. -/
def alphaDen {DIM : ℕ} (ffC fbC : Contacts DIM) (fluids : List (Fluid DIM))
    (bs : List (Boundary DIM)) (a i : ℕ) : ℚ :=
  (alphaGrads ffC fbC fluids bs a i).2 + normSq (alphaGrads ffC fbC fluids bs a i).1

/-- The alpha value written for particle (a, i): zero under the isolation
    threshold, otherwise the reciprocal of the denominator. -/
def alpha1 {DIM : ℕ} (ffC fbC : Contacts DIM) (fluids : List (Fluid DIM))
    (bs : List (Boundary DIM)) (a i : ℕ) : ℚ :=
  if alphaDen ffC fbC fluids bs a i ≤ 1 / 1000000 then 0
  else 1 / alphaDen ffC fbC fluids bs a i

/-- DFSPHSolver::compute_alphas (which stores alpha_i over density_i). -/
def compute_alphas {DIM : ℕ} (ffC fbC : Contacts DIM) (fluids : List (Fluid DIM))
    (bs : List (Boundary DIM)) (s : DFSPHSolver DIM) : DFSPHSolver DIM :=
  { s with alphas := overwriteFold (alpha1 ffC fbC fluids bs) fluids.length s.alphas }

/-- The per-contact fluid-to-boundary contribution of the constant-density
    update: the first component is what is added to the fluid particle dv
    (the source subtracts delta), the second is the force passed to
    apply_force, namely delta times inv_dt times the fluid particle mass. -/
def pressureBoundaryContrib {DIM : ℕ} (t : TimestepManager)
    (ki vol density0 mass_i : ℚ) (grad : Vector DIM) : Vector DIM × Vector DIM :=
  let coeff := ki * vol * density0
  let delta := vscale (coeff * t.inv_dt) grad
  (-delta, vscale (t.inv_dt * mass_i) delta)

/-- The per-contact fluid-to-boundary contribution of the divergence
    update: the first component is added to the fluid particle dv, the
    second is the force passed to apply_force, namely delta times minus
    inv_dt times the fluid particle mass. -/
def divergenceBoundaryContrib {DIM : ℕ} (t : TimestepManager)
    (ki vol density0 mass_i : ℚ) (grad : Vector DIM) : Vector DIM × Vector DIM :=
  let coeff := -ki * vol * density0
  let delta := vscale coeff grad
  (delta, vscale (-t.inv_dt * mass_i) delta)

/-- One fluid-fluid contact of the constant-density update: the symmetric
    coupling with the max(k, 0) clamps, applied only when positive. -/
def cvcFFCouple {DIM : ℕ} (t : TimestepManager) (fluids : List (Fluid DIM))
    (alphas pds : List (List ℚ)) (ki : ℚ) (vc : Vector DIM) (c : Contact DIM) :
    Vector DIM :=
  let fluid2 := fluids.getD c.j_model default
  let kj := (lookup2 pds c.j_model c.j 0 - fluid2.density0) *
    lookup2 alphas c.j_model c.j 0
  let kij := max ki 0 + max kj 0
  if 0 < kij then vc - vscale (kij * fluid2.particle_mass c.j * t.inv_dt) c.gradient
  else vc

/-- One fluid-boundary contact of the constant-density update: add the dv
    contribution and deposit the reaction force on the boundary. -/
def cvcBdyStep {DIM : ℕ} (t : TimestepManager) (fluid1 : Fluid DIM) (ki : ℚ)
    (acc : Vector DIM × List (Boundary DIM)) (c : Contact DIM) :
    Vector DIM × List (Boundary DIM) :=
  let contrib := pressureBoundaryContrib t ki
    ((acc.2.getD c.j_model default).volumes.getD c.j 0) fluid1.density0
    (fluid1.particle_mass c.i) c.gradient
  (acc.1 + contrib.1, applyForceAt acc.2 c.j_model c.j contrib.2)

/-- The body of compute_velocity_changes for one fluid particle: the
    symmetric fluid-fluid coupling, then the one-sided fluid-boundary
    coupling guarded by ki positive. -/
def cvcParticle {DIM : ℕ} (t : TimestepManager) (ffC fbC : Contacts DIM)
    (fluids : List (Fluid DIM)) (alphas pds : List (List ℚ)) (a i : ℕ)
    (vc0 : Vector DIM) (bs : List (Boundary DIM)) :
    Vector DIM × List (Boundary DIM) :=
  let fluid1 := fluids.getD a default
  let ki := (lookup2 pds a i 0 - fluid1.density0) * lookup2 alphas a i 0
  let vc1 := (pcs ffC a i).foldl (cvcFFCouple t fluids alphas pds ki) vc0
  if 0 < ki then (pcs fbC a i).foldl (cvcBdyStep t fluid1 ki) (vc1, bs)
  else (vc1, bs)

/-- The per-fluid loop of compute_velocity_changes: each particle writes
    only its own dv slot and threads the boundary force sinks. -/
def cvcFluid {DIM : ℕ} (t : TimestepManager) (ffC fbC : Contacts DIM)
    (fluids : List (Fluid DIM)) (alphas pds : List (List ℚ)) (a : ℕ)
    (acc : List (List (Vector DIM)) × List (Boundary DIM)) :
    List (List (Vector DIM)) × List (Boundary DIM) :=
  let buf := acc.1.getD a []
  let r := (List.range buf.length).foldl
    (fun acc2 i =>
      let p := cvcParticle t ffC fbC fluids alphas pds a i (acc2.1.getD i 0) acc2.2
      (acc2.1.set i p.1, p.2))
    (buf, acc.2)
  (acc.1.set a r.1, r.2)

/-- DFSPHSolver::compute_velocity_changes (the constant-density update). -/
def compute_velocity_changes {DIM : ℕ} (t : TimestepManager) (ffC fbC : Contacts DIM)
    (fluids : List (Fluid DIM)) (bs : List (Boundary DIM)) (s : DFSPHSolver DIM) :
    DFSPHSolver DIM × List (Boundary DIM) :=
  let r := (List.range fluids.length).foldl
    (fun acc a => cvcFluid t ffC fbC fluids s.alphas s.predicted_densities a acc)
    (s.velocity_changes, bs)
  ({ s with velocity_changes := r.1 }, r.2)

/-- Number of fluid plus boundary neighbors of particle (a, i), compared
    against min_neighbors_for_divergence_solve. -/
def divNeighborCount {DIM : ℕ} (ffC fbC : Contacts DIM) (a i : ℕ) : ℕ :=
  (pcs ffC a i).length + (pcs fbC a i).length

/-- The unclamped SPH divergence accumulated by compute_divergences
    (boundary velocities are deliberately ignored, as in the source). -/
def divRaw {DIM : ℕ} (ffC fbC : Contacts DIM) (fluids : List (Fluid DIM))
    (bs : List (Boundary DIM)) (vcs : List (List (Vector DIM))) (a i : ℕ) : ℚ :=
  let fluid_i := fluids.getD a default
  let d1 := (pcs ffC a i).foldl
    (fun acc c =>
      let fluid_j := fluids.getD c.j_model default
      let v_i := fluid_i.velocities.getD c.i 0 + lookup2 vcs c.i_model c.i 0
      let v_j := fluid_j.velocities.getD c.j 0 + lookup2 vcs c.j_model c.j 0
      acc + vdot (v_i - v_j) c.gradient * fluid_j.particle_mass c.j) 0
  (pcs fbC a i).foldl
    (fun acc c =>
      let v_i := fluid_i.velocities.getD c.i 0 + lookup2 vcs c.i_model c.i 0
      acc + vdot v_i c.gradient * (bs.getD c.j_model default).volumes.getD c.j 0 *
        fluid_i.density0) d1

/-- The divergence value written for particle (a, i): zero when the
    particle has fewer than minNb neighbors, otherwise the positive part
    of the raw divergence. -/
def divValue1 {DIM : ℕ} (ffC fbC : Contacts DIM) (fluids : List (Fluid DIM))
    (bs : List (Boundary DIM)) (vcs : List (List (Vector DIM))) (minNb : ℕ)
    (a i : ℕ) : ℚ :=
  if divNeighborCount ffC fbC a i < minNb then 0
  else max (divRaw ffC fbC fluids bs vcs a i) 0

/-- The per-particle error contribution returned to the divergence error
    reduction: zero for under-neighbored particles, otherwise the clamped
    divergence over the rest density. -/
def divErr1 {DIM : ℕ} (ffC fbC : Contacts DIM) (fluids : List (Fluid DIM))
    (bs : List (Boundary DIM)) (vcs : List (List (Vector DIM))) (minNb : ℕ)
    (a i : ℕ) : ℚ :=
  if divNeighborCount ffC fbC a i < minNb then 0
  else divValue1 ffC fbC fluids bs vcs minNb a i / (fluids.getD a default).density0

/-- DFSPHSolver::compute_divergences: rewrite the divergence buffer of
    every fluid and return the largest per-fluid mean divergence error. -/
def compute_divergences {DIM : ℕ} (ffC fbC : Contacts DIM) (fluids : List (Fluid DIM))
    (bs : List (Boundary DIM)) (s : DFSPHSolver DIM) : DFSPHSolver DIM × ℚ :=
  let r := overwriteFoldErr
    (divValue1 ffC fbC fluids bs s.velocity_changes s.min_neighbors_for_divergence_solve)
    (divErr1 ffC fbC fluids bs s.velocity_changes s.min_neighbors_for_divergence_solve)
    (fun a => (fluids.getD a default).num_particles)
    fluids.length s.divergences
  ({ s with divergences := r.1 }, r.2)

/-- One fluid-fluid contact of the divergence update: unclamped symmetric
    coupling, with no division by dt. -/
def cvcdFFCouple {DIM : ℕ} (fluids : List (Fluid DIM))
    (alphas divs : List (List ℚ)) (ki : ℚ) (vc : Vector DIM) (c : Contact DIM) :
    Vector DIM :=
  let fluid2 := fluids.getD c.j_model default
  let kj := lookup2 divs c.j_model c.j 0 * lookup2 alphas c.j_model c.j 0
  let coeff := -(ki + kj) * fluid2.particle_mass c.j
  vc + vscale coeff c.gradient

/-- One fluid-boundary contact of the divergence update. -/
def cvcdBdyStep {DIM : ℕ} (t : TimestepManager) (fluid1 : Fluid DIM) (ki : ℚ)
    (acc : Vector DIM × List (Boundary DIM)) (c : Contact DIM) :
    Vector DIM × List (Boundary DIM) :=
  let contrib := divergenceBoundaryContrib t ki
    ((acc.2.getD c.j_model default).volumes.getD c.j 0) fluid1.density0
    (fluid1.particle_mass c.i) c.gradient
  (acc.1 + contrib.1, applyForceAt acc.2 c.j_model c.j contrib.2)

/-- The body of compute_velocity_changes_for_divergence for one particle. -/
def cvcdParticle {DIM : ℕ} (t : TimestepManager) (ffC fbC : Contacts DIM)
    (fluids : List (Fluid DIM)) (alphas divs : List (List ℚ)) (a i : ℕ)
    (vc0 : Vector DIM) (bs : List (Boundary DIM)) :
    Vector DIM × List (Boundary DIM) :=
  let fluid1 := fluids.getD a default
  let ki := lookup2 divs a i 0 * lookup2 alphas a i 0
  let vc1 := (pcs ffC a i).foldl (cvcdFFCouple fluids alphas divs ki) vc0
  (pcs fbC a i).foldl (cvcdBdyStep t fluid1 ki) (vc1, bs)

/-- The per-fluid loop of compute_velocity_changes_for_divergence. -/
def cvcdFluid {DIM : ℕ} (t : TimestepManager) (ffC fbC : Contacts DIM)
    (fluids : List (Fluid DIM)) (alphas divs : List (List ℚ)) (a : ℕ)
    (acc : List (List (Vector DIM)) × List (Boundary DIM)) :
    List (List (Vector DIM)) × List (Boundary DIM) :=
  let buf := acc.1.getD a []
  let r := (List.range buf.length).foldl
    (fun acc2 i =>
      let p := cvcdParticle t ffC fbC fluids alphas divs a i (acc2.1.getD i 0) acc2.2
      (acc2.1.set i p.1, p.2))
    (buf, acc.2)
  (acc.1.set a r.1, r.2)

/-- DFSPHSolver::compute_velocity_changes_for_divergence. -/
def compute_velocity_changes_for_divergence {DIM : ℕ} (t : TimestepManager)
    (ffC fbC : Contacts DIM) (fluids : List (Fluid DIM)) (bs : List (Boundary DIM))
    (s : DFSPHSolver DIM) : DFSPHSolver DIM × List (Boundary DIM) :=
  let r := (List.range fluids.length).foldl
    (fun acc a => cvcdFluid t ffC fbC fluids s.alphas s.divergences a acc)
    (s.velocity_changes, bs)
  ({ s with velocity_changes := r.1 }, r.2)

/-- The pressure_solve loop: i is the loop index, fuel the remaining
    iterations of the for-range, cnt counts entered iterations (equal to
    the number of compute_predicted_densities evaluations); the Bool
    records whether the loop broke at the tolerance test. -/
def pressureLoop {DIM : ℕ} (t : TimestepManager) (ffC fbC : Contacts DIM)
    (fluids : List (Fluid DIM)) :
    DFSPHSolver DIM → List (Boundary DIM) → ℕ → ℕ → ℕ →
      DFSPHSolver DIM × List (Boundary DIM) × ℕ × Bool
  | s, bs, _, 0, cnt => (s, bs, cnt, false)
  | s, bs, i, fuel + 1, cnt =>
    let r := compute_predicted_densities t ffC fbC fluids bs s
    if r.2 ≤ r.1.max_density_error ∧ r.1.min_pressure_iter ≤ i then
      (r.1, bs, cnt + 1, true)
    else
      let r2 := compute_velocity_changes t ffC fbC fluids bs r.1
      pressureLoop t ffC fbC fluids r2.1 r2.2 (i + 1) fuel (cnt + 1)

/-- DFSPHSolver::pressure_solve. -/
def pressure_solve {DIM : ℕ} (t : TimestepManager) (ffC fbC : Contacts DIM)
    (fluids : List (Fluid DIM)) (bs : List (Boundary DIM)) (s : DFSPHSolver DIM) :
    DFSPHSolver DIM × List (Boundary DIM) × ℕ × Bool :=
  pressureLoop t ffC fbC fluids s bs 0 s.max_pressure_iter 0

/-- The divergence_solve loop, with the same bookkeeping as pressureLoop;
    the tolerance is max_divergence_error times inv_dt times one percent. -/
def divergenceLoop {DIM : ℕ} (t : TimestepManager) (ffC fbC : Contacts DIM)
    (fluids : List (Fluid DIM)) :
    DFSPHSolver DIM → List (Boundary DIM) → ℕ → ℕ → ℕ →
      DFSPHSolver DIM × List (Boundary DIM) × ℕ × Bool
  | s, bs, _, 0, cnt => (s, bs, cnt, false)
  | s, bs, i, fuel + 1, cnt =>
    let r := compute_divergences ffC fbC fluids bs s
    if r.2 ≤ r.1.max_divergence_error * t.inv_dt * (1 / 100) ∧
        r.1.min_divergence_iter ≤ i then
      (r.1, bs, cnt + 1, true)
    else
      let r2 := compute_velocity_changes_for_divergence t ffC fbC fluids bs r.1
      divergenceLoop t ffC fbC fluids r2.1 r2.2 (i + 1) fuel (cnt + 1)

/-- DFSPHSolver::divergence_solve (the counters it touches are timing
    no-ops and are not modelled). -/
def divergence_solve {DIM : ℕ} (t : TimestepManager) (ffC fbC : Contacts DIM)
    (fluids : List (Fluid DIM)) (bs : List (Boundary DIM)) (s : DFSPHSolver DIM) :
    DFSPHSolver DIM × List (Boundary DIM) × ℕ × Bool :=
  divergenceLoop t ffC fbC fluids s bs 0 s.max_divergence_iter 0

/-- Pairwise update of xs by ys, keeping the tail of xs that has no
    partner, exactly like a zip of a mutable and an immutable iterator. -/
def zipWithKeep {α β : Type} (f : α → β → α) (xs : List α) (ys : List β) : List α :=
  List.zipWith f xs ys ++ xs.drop ys.length

/-- DFSPHSolver::update_velocities: fold the accumulated dv into the fluid
    velocities. -/
def update_velocities {DIM : ℕ} (s : DFSPHSolver DIM) (fluids : List (Fluid DIM)) :
    List (Fluid DIM) :=
  (fluids.zip s.velocity_changes).map
    (fun p => { p.1 with velocities := zipWithKeep (fun v dv => v + dv) p.1.velocities p.2 })
    ++ fluids.drop s.velocity_changes.length

/-- DFSPHSolver::update_positions: advance positions by (v + dv) dt. -/
def update_positions {DIM : ℕ} (t : TimestepManager) (s : DFSPHSolver DIM)
    (fluids : List (Fluid DIM)) : List (Fluid DIM) :=
  (fluids.zip s.velocity_changes).map
    (fun p =>
      let newPos := zipWithKeep (fun pos vd => pos + vscale t.dt (vd.1 + vd.2))
        p.1.positions (p.1.velocities.zip p.2)
      { p.1 with positions := newPos })
    ++ fluids.drop s.velocity_changes.length

/-- DFSPHSolver::integrate_and_clear_accelerations: dv gains a dt, and the
    accelerations paired with a dv slot are zeroed. -/
def integrate_and_clear_accelerations {DIM : ℕ} (t : TimestepManager)
    (s : DFSPHSolver DIM) (fluids : List (Fluid DIM)) :
    DFSPHSolver DIM × List (Fluid DIM) :=
  let vcs := (s.velocity_changes.zip fluids).map
    (fun p => zipWithKeep (fun vc acc => vc + vscale t.dt acc) p.1 p.2.accelerations)
    ++ s.velocity_changes.drop fluids.length
  let fls := (fluids.zip s.velocity_changes).map
    (fun p =>
      let newAcc := zipWithKeep (fun _ _ => (0 : Vector DIM)) p.1.accelerations p.2
      { p.1 with accelerations := newAcc })
    ++ fluids.drop s.velocity_changes.length
  ({ s with velocity_changes := vcs }, fls)

/-- Map with the element index, starting at n. -/
def listMapIdxFrom {α : Type} (f : ℕ → α → α) : ℕ → List α → List α
  | _, [] => []
  | n, x :: xs => f n x :: listMapIdxFrom f (n + 1) xs

/-- PressureSolver::predict_advection: add gravity to every acceleration,
    then run the non-pressure force contributors of each fluid.  The
    contributors are external collaborators, abstracted as a per-fluid
    function npforces; the multizip of the source runs them only for fluid
    ids having contact lists and a density buffer. -/
def predict_advection {DIM : ℕ} (gravity : Vector DIM)
    (npforces : ℕ → Fluid DIM → Fluid DIM) (ffC fbC : Contacts DIM)
    (dens : List (List ℚ)) (fluids : List (Fluid DIM)) : List (Fluid DIM) :=
  let fluids1 := fluids.map
    (fun f => { f with accelerations := f.accelerations.map (fun acc => acc + gravity) })
  let m := min (min fluids1.length ffC.length) (min fbC.length dens.length)
  listMapIdxFrom (fun id f => if id < m then npforces id f else f) 0 fluids1

/-- The zeroing of the velocity_changes buffers performed by step right
    after update_velocities. -/
def clear_velocity_changes {DIM : ℕ} (s : DFSPHSolver DIM) : DFSPHSolver DIM :=
  { s with velocity_changes :=
      s.velocity_changes.map (fun vs => vs.map (fun _ => (0 : Vector DIM))) }

/-- The prefix of PressureSolver::step up to and including the commit of
    the divergence corrections: compute alphas, divergence solve, fold dv
    into the velocities, zero dv.  What follows is the non-pressure-force
    phase. -/
def stepPreAdvect {DIM : ℕ} (t : TimestepManager) (ffC fbC : Contacts DIM)
    (fluids : List (Fluid DIM)) (bs : List (Boundary DIM)) (s : DFSPHSolver DIM) :
    DFSPHSolver DIM × List (Fluid DIM) × List (Boundary DIM) :=
  let s1 := compute_alphas ffC fbC fluids bs s
  let rd := divergence_solve t ffC fbC fluids bs s1
  let fluids1 := update_velocities rd.1 fluids
  (clear_velocity_changes rd.1, fluids1, rd.2.1)

/-- PressureSolver::step for the DFSPH solver.  The external collaborators
    are passed as functions: adv is TimestepManager::advance and npforces
    stands for the non-pressure force contributors run by
    predict_advection.  Kernel evaluation and compute_densities are driver
    phases invoked before step and are not part of it; the counters are
    timing no-ops. -/
def step {DIM : ℕ} (t : TimestepManager)
    (adv : TimestepManager → List (Fluid DIM) → TimestepManager)
    (npforces : ℕ → Fluid DIM → Fluid DIM) (gravity : Vector DIM)
    (ffC fbC : Contacts DIM) (fluids : List (Fluid DIM)) (bs : List (Boundary DIM))
    (s : DFSPHSolver DIM) :
    DFSPHSolver DIM × List (Fluid DIM) × List (Boundary DIM) × TimestepManager :=
  let pre := stepPreAdvect t ffC fbC fluids bs s
  let fluids2 := predict_advection gravity npforces ffC fbC pre.1.densities pre.2.1
  let t2 := adv t fluids2
  let ri := integrate_and_clear_accelerations t2 pre.1 fluids2
  let rp := pressure_solve t2 ffC fbC ri.2 pre.2.2 ri.1
  let fluids3 := update_positions t2 rp.1 ri.2
  (rp.1, fluids3, rp.2.1, t2)

/-- Spec-side per-fluid mean scaled density error, written from the spec:
    the arithmetic mean, over the particles of fluid a, of
    max(0, predicted density over rest density minus one). -/
def specFluidDensityError {DIM : ℕ} (t : TimestepManager) (ffC fbC : Contacts DIM)
    (fluids : List (Fluid DIM)) (bs : List (Boundary DIM))
    (dens : List (List ℚ)) (vcs : List (List (Vector DIM))) (a : ℕ) : ℚ :=
  let f := fluids.getD a default
  (((List.range f.num_particles).map
      (fun i => max 0 (predDensity1 t ffC fbC fluids bs dens vcs a i / f.density0 - 1))).sum) /
    (f.num_particles : ℚ)

/-- The boundary observations preserved by force deposits: every boundary
    particle keeps its velocity and its volume. -/
def BdyShape {DIM : ℕ} (bs0 bs : List (Boundary DIM)) : Prop :=
  bs.map (fun b => b.velocities) = bs0.map (fun b => b.velocities) ∧
  bs.map (fun b => b.volumes) = bs0.map (fun b => b.volumes)

/-- A one-particle fluid at rest used by the concrete instances below. -/
def exFluid : Fluid 2 :=
  { positions := [0], velocities := [0], accelerations := [0], masses := [1],
    density0 := 1 }

/-- Empty contact lists for a single one-particle fluid. -/
def exContacts : Contacts 2 := [[[]]]

/-- A unit timestep whose reciprocal is also one. -/
def exTM : TimestepManager := ⟨1, 1⟩

/-- A uniform unit gravity vector. -/
def exGravity : Vector 2 := fun _ => 1

/-- A solver state for one resting particle: buffers of length one, zero
    alphas and dv, density at the rest density. -/
def exSolverRest : DFSPHSolver 2 :=
  { DFSPHSolver.new 2 with
    alphas := [[0]], densities := [[1]], predicted_densities := [[0]],
    divergences := [[0]], velocity_changes := [[0]] }

/-- The same state with the predicted densities evaluated. -/
def exSolverRestP : DFSPHSolver 2 :=
  { exSolverRest with predicted_densities := [[1]] }

/-- A compressed one-particle state with the iteration caps of scenario
    S5: max_pressure_iter 3 and zero density tolerance. -/
def exSolverC8 : DFSPHSolver 2 :=
  { DFSPHSolver.new 2 with
    max_pressure_iter := 3, max_density_error := 0,
    alphas := [[0]], densities := [[2]], predicted_densities := [[0]],
    divergences := [[0]], velocity_changes := [[0]] }

/-- The same state with the predicted densities evaluated. -/
def exSolverC8P : DFSPHSolver 2 :=
  { exSolverC8 with predicted_densities := [[2]] }

def exSolverRestG : DFSPHSolver 2 := { exSolverRest with velocity_changes := [[exGravity]] }

def exSolverRestGP : DFSPHSolver 2 := { exSolverRestG with predicted_densities := [[1]] }

def exFluidG : Fluid 2 := { exFluid with accelerations := [exGravity] }

def exEmptyFluid : Fluid 2 :=
  { positions := [], velocities := [], accelerations := [], masses := [], density0 := 1 }

/-- Reading past the end of a list yields the default. -/
theorem getD_oob {α : Type} (l : List α) {n : ℕ} (h : l.length ≤ n) (d : α) :
    l.getD n d = d := by
  induction l generalizing n with
  | nil => rfl
  | cons x xs ih =>
    cases n with
    | zero => simp at h
    | succ n =>
      show xs.getD n d = d
      exact ih (by simpa using h)

/-- Writing past the end of a list is a no-op. -/
theorem set_oob {α : Type} (l : List α) {n : ℕ} (h : l.length ≤ n) (x : α) :
    l.set n x = l := by
  induction l generalizing n with
  | nil => rfl
  | cons y ys ih =>
    cases n with
    | zero => simp at h
    | succ n =>
      show y :: ys.set n x = y :: ys
      rw [ih (by simpa using h)]

/-- Reading an index other than the one just written sees the old list. -/
theorem getD_set_ne {α : Type} (l : List α) (x : α) {a b : ℕ} (h : a ≠ b) (d : α) :
    (l.set a x).getD b d = l.getD b d := by
  induction l generalizing a b with
  | nil => rfl
  | cons y ys ih =>
    cases a with
    | zero =>
      cases b with
      | zero => exact absurd rfl h
      | succ b => rfl
    | succ a =>
      cases b with
      | zero => rfl
      | succ b =>
        show (ys.set a x).getD b d = ys.getD b d
        exact ih (fun hh => h (by rw [hh]))

/-- Reading the index just written, in range, sees the new value. -/
theorem getD_set_self {α : Type} (l : List α) (x : α) {a : ℕ} (h : a < l.length) (d : α) :
    (l.set a x).getD a d = x := by
  induction l generalizing a with
  | nil => simp at h
  | cons y ys ih =>
    cases a with
    | zero => rfl
    | succ a =>
      show (ys.set a x).getD a d = x
      exact ih (by simpa using h)

/-- Writing back the value just read is a no-op. -/
theorem set_getD_self {α : Type} (l : List α) (a : ℕ) (d : α) :
    l.set a (l.getD a d) = l := by
  induction l generalizing a with
  | nil => rfl
  | cons y ys ih =>
    cases a with
    | zero => rfl
    | succ a =>
      show y :: ys.set a (ys.getD a d) = y :: ys
      rw [ih]

/-- Reading a list with a known in-range index. -/
theorem getD_lt {α : Type} (l : List α) {i : ℕ} (h : i < l.length) (d : α) :
    l.getD i d = l.get ⟨i, h⟩ := by
  induction l generalizing i with
  | nil => simp at h
  | cons x xs ih =>
    cases i with
    | zero => rfl
    | succ i =>
      show xs.getD i d = _
      exact ih (by simpa using h)

/-- Reading an in-range index of a mapped range. -/
theorem getD_map_range {α : Type} (f : ℕ → α) {i n : ℕ} (h : i < n) (d : α) :
    ((List.range n).map f).getD i d = f i := by
  rw [getD_lt _ (by simpa using h)]
  simp

/-- Mapping a constant over a list and reading any index with that same
    default yields the constant. -/
theorem getD_map_const {α β : Type} (l : List α) (i : ℕ) (z : β) :
    (l.map (fun _ => z)).getD i z = z := by
  induction l generalizing i with
  | nil => rfl
  | cons x xs ih =>
    cases i with
    | zero => rfl
    | succ i => exact ih i

/-- An invariant preserved by every fold step holds of the fold result. -/
theorem foldl_inv {α β : Type} (P : β → Prop) (step : β → α → β)
    (h : ∀ b x, P b → P (step b x)) :
    ∀ (l : List α) (b : β), P b → P (l.foldl step b)
  | [], _, hb => hb
  | x :: xs, b, hb => foldl_inv P step h xs (step b x) (h b x hb)

/-- Folding a step function that never changes the accumulator. -/
theorem foldl_fix {α β : Type} (step : β → α → β)
    (h : ∀ b x, step b x = b) :
    ∀ (l : List α) (b : β), l.foldl step b = b
  | [], _ => rfl
  | x :: xs, b => by
      rw [List.foldl_cons, h b x]
      exact foldl_fix step h xs b

/-- Two folds agree when the step functions agree on the elements. -/
theorem foldl_congr2 {α β : Type} (f g : β → α → β) :
    ∀ (l : List α), (∀ x ∈ l, ∀ b, f b x = g b x) → ∀ b, l.foldl f b = l.foldl g b
  | [], _, _ => rfl
  | x :: xs, h, b => by
      rw [List.foldl_cons, List.foldl_cons, h x (by simp)]
      exact foldl_congr2 f g xs (fun y hy b2 => h y (by simp [hy]) b2) _

/-- Summing a mapped list equals summing over the filtered list when the
    function vanishes outside the filter. -/
theorem sum_map_filter_eq {α : Type} (p : α → Bool) (f : α → ℚ) :
    ∀ l : List α, (∀ x ∈ l, p x = false → f x = 0) →
      (l.map f).sum = ((l.filter p).map f).sum := by
  intro l
  induction l with
  | nil => intro _; rfl
  | cons x xs ih =>
    intro h
    cases hp : p x with
    | false =>
      simp only [List.map_cons, List.sum_cons, List.filter_cons, hp, Bool.false_eq_true,
        if_false, h x (by simp) hp, zero_add, cond_false]
      exact ih (fun y hy hf => h y (by simp [hy]) hf)
    | true =>
      simp only [List.map_cons, List.sum_cons, List.filter_cons, hp, if_true, cond_true]
      rw [ih (fun y hy hf => h y (by simp [hy]) hf)]

theorem ofe_succ_fst {α : Type} (f : ℕ → ℕ → α) (g : ℕ → ℕ → ℚ) (np : ℕ → ℕ)
    (n : ℕ) (bufs : List (List α)) :
    (overwriteFoldErr f g np (n + 1) bufs).1 =
      (overwriteFoldErr f g np n bufs).1.set n
        ((List.range (((overwriteFoldErr f g np n bufs).1.getD n []).length)).map (f n)) := by
  unfold overwriteFoldErr
  rw [List.range_succ, List.foldl_append]
  rfl

theorem ofe_succ_snd {α : Type} (f : ℕ → ℕ → α) (g : ℕ → ℕ → ℚ) (np : ℕ → ℕ)
    (n : ℕ) (bufs : List (List α)) :
    (overwriteFoldErr f g np (n + 1) bufs).2 =
      errStep g np (((overwriteFoldErr f g np n bufs).1.getD n []).length)
        (overwriteFoldErr f g np n bufs).2 n := by
  unfold overwriteFoldErr
  rw [List.range_succ, List.foldl_append]
  rfl

theorem ofe_outer_len {α : Type} (f : ℕ → ℕ → α) (g : ℕ → ℕ → ℚ) (np : ℕ → ℕ) :
    ∀ (n : ℕ) (bufs : List (List α)),
      (overwriteFoldErr f g np n bufs).1.length = bufs.length := by
  intro n
  induction n with
  | zero => intro bufs; rfl
  | succ n ih =>
    intro bufs
    rw [ofe_succ_fst, List.length_set]
    exact ih bufs

theorem ofe_len {α : Type} (f : ℕ → ℕ → α) (g : ℕ → ℕ → ℚ) (np : ℕ → ℕ) :
    ∀ (n : ℕ) (bufs : List (List α)) (b : ℕ),
      ((overwriteFoldErr f g np n bufs).1.getD b []).length = (bufs.getD b []).length := by
  intro n
  induction n with
  | zero => intro bufs b; rfl
  | succ n ih =>
    intro bufs b
    rw [ofe_succ_fst]
    by_cases hb : n = b
    · subst hb
      rcases Nat.lt_or_ge n (overwriteFoldErr f g np n bufs).1.length with hlt | hge
      · rw [getD_set_self _ _ hlt, List.length_map, List.length_range]
        exact ih bufs n
      · rw [set_oob _ hge]
        exact ih bufs n
    · rw [getD_set_ne _ _ hb]
      exact ih bufs b

theorem ofe_fst_getD {α : Type} (f : ℕ → ℕ → α) (g : ℕ → ℕ → ℚ) (np : ℕ → ℕ) :
    ∀ (n : ℕ) (bufs : List (List α)) (a : ℕ), a < n →
      (overwriteFoldErr f g np n bufs).1.getD a [] =
        (List.range ((bufs.getD a []).length)).map (f a) := by
  intro n
  induction n with
  | zero => intro bufs a h; omega
  | succ n ih =>
    intro bufs a h
    rw [ofe_succ_fst]
    by_cases ha : n = a
    · subst ha
      rcases Nat.lt_or_ge n (overwriteFoldErr f g np n bufs).1.length with hlt | hge
      · rw [getD_set_self _ _ hlt, ofe_len]
      · rw [set_oob _ hge]
        have h1 : (overwriteFoldErr f g np n bufs).1.getD n [] = [] := getD_oob _ hge _
        have h2 : bufs.getD n [] = [] := by
          rw [ofe_outer_len] at hge
          exact getD_oob _ hge _
        rw [h1, h2]
        rfl
    · rw [getD_set_ne _ _ ha]
      exact ih bufs a (by omega)

theorem ofe_snd_eq {α : Type} (f : ℕ → ℕ → α) (g : ℕ → ℕ → ℚ) (np : ℕ → ℕ) :
    ∀ (n : ℕ) (bufs : List (List α)),
      (overwriteFoldErr f g np n bufs).2 =
        (List.range n).foldl (fun m a => errStep g np ((bufs.getD a []).length) m a) 0 := by
  intro n
  induction n with
  | zero => intro bufs; rfl
  | succ n ih =>
    intro bufs
    rw [ofe_succ_snd, List.range_succ, List.foldl_append, ih, ofe_len]
    rfl

theorem owf_succ {α : Type} (f : ℕ → ℕ → α) (n : ℕ) (bufs : List (List α)) :
    overwriteFold f (n + 1) bufs =
      (overwriteFold f n bufs).set n
        ((List.range (((overwriteFold f n bufs).getD n []).length)).map (f n)) := by
  unfold overwriteFold
  rw [List.range_succ, List.foldl_append]
  rfl

theorem owf_outer_len {α : Type} (f : ℕ → ℕ → α) :
    ∀ (n : ℕ) (bufs : List (List α)), (overwriteFold f n bufs).length = bufs.length := by
  intro n
  induction n with
  | zero => intro bufs; rfl
  | succ n ih =>
    intro bufs
    rw [owf_succ, List.length_set]
    exact ih bufs

theorem owf_len {α : Type} (f : ℕ → ℕ → α) :
    ∀ (n : ℕ) (bufs : List (List α)) (b : ℕ),
      ((overwriteFold f n bufs).getD b []).length = (bufs.getD b []).length := by
  intro n
  induction n with
  | zero => intro bufs b; rfl
  | succ n ih =>
    intro bufs b
    rw [owf_succ]
    by_cases hb : n = b
    · subst hb
      rcases Nat.lt_or_ge n (overwriteFold f n bufs).length with hlt | hge
      · rw [getD_set_self _ _ hlt, List.length_map, List.length_range]
        exact ih bufs n
      · rw [set_oob _ hge]
        exact ih bufs n
    · rw [getD_set_ne _ _ hb]
      exact ih bufs b

theorem owf_getD {α : Type} (f : ℕ → ℕ → α) :
    ∀ (n : ℕ) (bufs : List (List α)) (a : ℕ), a < n →
      (overwriteFold f n bufs).getD a [] =
        (List.range ((bufs.getD a []).length)).map (f a) := by
  intro n
  induction n with
  | zero => intro bufs a h; omega
  | succ n ih =>
    intro bufs a h
    rw [owf_succ]
    by_cases ha : n = a
    · subst ha
      rcases Nat.lt_or_ge n (overwriteFold f n bufs).length with hlt | hge
      · rw [getD_set_self _ _ hlt, owf_len]
      · rw [set_oob _ hge]
        have h1 : (overwriteFold f n bufs).getD n [] = [] := getD_oob _ hge _
        have h2 : bufs.getD n [] = [] := by
          rw [owf_outer_len] at hge
          exact getD_oob _ hge _
        rw [h1, h2]
        rfl
    · rw [getD_set_ne _ _ ha]
      exact ih bufs a (by omega)

/-- Folding max from 0 over a nonempty list of nonnegatives is the maximum. -/
theorem foldl_max_zero (l : List ℚ) (hne : l ≠ []) (h : ∀ x ∈ l, 0 ≤ x) :
    l.foldl max 0 = listMax l := by
  cases l with
  | nil => exact absurd rfl hne
  | cons x xs =>
    show xs.foldl max (max 0 x) = xs.foldl max x
    rw [max_eq_right (h x (by simp))]

theorem pressureLoop_go {DIM : ℕ} {t : TimestepManager} {ffC fbC : Contacts DIM}
    {fluids : List (Fluid DIM)} {s : DFSPHSolver DIM} {bs : List (Boundary DIM)}
    {i fuel cnt : ℕ} {s1 : DFSPHSolver DIM} {err : ℚ}
    (h1 : compute_predicted_densities t ffC fbC fluids bs s = (s1, err))
    (h2 : ¬(err ≤ s1.max_density_error ∧ s1.min_pressure_iter ≤ i)) :
    pressureLoop t ffC fbC fluids s bs i (fuel + 1) cnt =
      pressureLoop t ffC fbC fluids
        (compute_velocity_changes t ffC fbC fluids bs s1).1
        (compute_velocity_changes t ffC fbC fluids bs s1).2 (i + 1) fuel (cnt + 1) := by
  simp only [pressureLoop, h1]
  rw [if_neg h2]

theorem pressureLoop_break {DIM : ℕ} {t : TimestepManager} {ffC fbC : Contacts DIM}
    {fluids : List (Fluid DIM)} {s : DFSPHSolver DIM} {bs : List (Boundary DIM)}
    {i fuel cnt : ℕ} {s1 : DFSPHSolver DIM} {err : ℚ}
    (h1 : compute_predicted_densities t ffC fbC fluids bs s = (s1, err))
    (h2 : err ≤ s1.max_density_error ∧ s1.min_pressure_iter ≤ i) :
    pressureLoop t ffC fbC fluids s bs i (fuel + 1) cnt = (s1, bs, cnt + 1, true) := by
  simp only [pressureLoop, h1]
  rw [if_pos h2]

theorem divergenceLoop_go {DIM : ℕ} {t : TimestepManager} {ffC fbC : Contacts DIM}
    {fluids : List (Fluid DIM)} {s : DFSPHSolver DIM} {bs : List (Boundary DIM)}
    {i fuel cnt : ℕ} {s1 : DFSPHSolver DIM} {err : ℚ}
    (h1 : compute_divergences ffC fbC fluids bs s = (s1, err))
    (h2 : ¬(err ≤ s1.max_divergence_error * t.inv_dt * (1 / 100) ∧
        s1.min_divergence_iter ≤ i)) :
    divergenceLoop t ffC fbC fluids s bs i (fuel + 1) cnt =
      divergenceLoop t ffC fbC fluids
        (compute_velocity_changes_for_divergence t ffC fbC fluids bs s1).1
        (compute_velocity_changes_for_divergence t ffC fbC fluids bs s1).2
        (i + 1) fuel (cnt + 1) := by
  simp only [divergenceLoop, h1]
  rw [if_neg h2]

theorem divergenceLoop_break {DIM : ℕ} {t : TimestepManager} {ffC fbC : Contacts DIM}
    {fluids : List (Fluid DIM)} {s : DFSPHSolver DIM} {bs : List (Boundary DIM)}
    {i fuel cnt : ℕ} {s1 : DFSPHSolver DIM} {err : ℚ}
    (h1 : compute_divergences ffC fbC fluids bs s = (s1, err))
    (h2 : err ≤ s1.max_divergence_error * t.inv_dt * (1 / 100) ∧
        s1.min_divergence_iter ≤ i) :
    divergenceLoop t ffC fbC fluids s bs i (fuel + 1) cnt = (s1, bs, cnt + 1, true) := by
  simp only [divergenceLoop, h1]
  rw [if_pos h2]

theorem pressureLoop_cnt {DIM : ℕ} (t : TimestepManager) (ffC fbC : Contacts DIM)
    (fluids : List (Fluid DIM)) :
    ∀ (fuel : ℕ) (s : DFSPHSolver DIM) (bs : List (Boundary DIM)) (i cnt : ℕ),
      (pressureLoop t ffC fbC fluids s bs i fuel cnt).2.2.1 ≤ cnt + fuel ∧
        ((pressureLoop t ffC fbC fluids s bs i fuel cnt).2.2.2 = false →
          (pressureLoop t ffC fbC fluids s bs i fuel cnt).2.2.1 = cnt + fuel) := by
  intro fuel
  induction fuel with
  | zero => intro s bs i cnt; exact ⟨Nat.le_refl _, fun _ => rfl⟩
  | succ fuel ih =>
    intro s bs i cnt
    simp only [pressureLoop]
    by_cases hc : (compute_predicted_densities t ffC fbC fluids bs s).2 ≤
        (compute_predicted_densities t ffC fbC fluids bs s).1.max_density_error ∧
        (compute_predicted_densities t ffC fbC fluids bs s).1.min_pressure_iter ≤ i
    · rw [if_pos hc]
      dsimp only
      exact ⟨by omega, fun hb => by simp at hb⟩
    · rw [if_neg hc]
      rcases ih (compute_velocity_changes t ffC fbC fluids bs
          (compute_predicted_densities t ffC fbC fluids bs s).1).1
        (compute_velocity_changes t ffC fbC fluids bs
          (compute_predicted_densities t ffC fbC fluids bs s).1).2 (i + 1) (cnt + 1)
        with ⟨hle, himp⟩
      exact ⟨by omega, fun hb => by have := himp hb; omega⟩

theorem divergenceLoop_cnt {DIM : ℕ} (t : TimestepManager) (ffC fbC : Contacts DIM)
    (fluids : List (Fluid DIM)) :
    ∀ (fuel : ℕ) (s : DFSPHSolver DIM) (bs : List (Boundary DIM)) (i cnt : ℕ),
      (divergenceLoop t ffC fbC fluids s bs i fuel cnt).2.2.1 ≤ cnt + fuel ∧
        ((divergenceLoop t ffC fbC fluids s bs i fuel cnt).2.2.2 = false →
          (divergenceLoop t ffC fbC fluids s bs i fuel cnt).2.2.1 = cnt + fuel) := by
  intro fuel
  induction fuel with
  | zero => intro s bs i cnt; exact ⟨Nat.le_refl _, fun _ => rfl⟩
  | succ fuel ih =>
    intro s bs i cnt
    simp only [divergenceLoop]
    by_cases hc : (compute_divergences ffC fbC fluids bs s).2 ≤
        (compute_divergences ffC fbC fluids bs s).1.max_divergence_error * t.inv_dt *
          (1 / 100) ∧
        (compute_divergences ffC fbC fluids bs s).1.min_divergence_iter ≤ i
    · rw [if_pos hc]
      dsimp only
      exact ⟨by omega, fun hb => by simp at hb⟩
    · rw [if_neg hc]
      rcases ih (compute_velocity_changes_for_divergence t ffC fbC fluids bs
          (compute_divergences ffC fbC fluids bs s).1).1
        (compute_velocity_changes_for_divergence t ffC fbC fluids bs
          (compute_divergences ffC fbC fluids bs s).1).2 (i + 1) (cnt + 1)
        with ⟨hle, himp⟩
      exact ⟨by omega, fun hb => by have := himp hb; omega⟩

/-- Map then fold written as a single fold. -/
theorem foldl_map2 {α β γ : Type} (g : α → β) (f : γ → β → γ) :
    ∀ (l : List α) (b : γ), (l.map g).foldl f b = l.foldl (fun x y => f x (g y)) b
  | [], _ => rfl
  | x :: xs, b => foldl_map2 g f xs (f b (g x))

/-- A sum of nonnegative rationals is nonnegative. -/
theorem list_sum_nonneg : ∀ (l : List ℚ), (∀ x ∈ l, 0 ≤ x) → 0 ≤ l.sum
  | [], _ => le_refl 0
  | x :: xs, h => by
      rw [List.sum_cons]
      exact add_nonneg (h x (by simp)) (list_sum_nonneg xs (fun y hy => h y (by simp [hy])))

/-- Squared norms are nonnegative. -/
theorem normSq_nonneg {DIM : ℕ} (v : Vector DIM) : 0 ≤ normSq v := by
  unfold normSq vdot
  exact Finset.sum_nonneg (fun k _ => mul_self_nonneg (v k))

/-- The squared-gradient accumulator of compute_alphas is nonnegative. -/
theorem alphaGrads_snd_nonneg {DIM : ℕ} (ffC fbC : Contacts DIM)
    (fluids : List (Fluid DIM)) (bs : List (Boundary DIM)) (a i : ℕ) :
    0 ≤ (alphaGrads ffC fbC fluids bs a i).2 := by
  simp only [alphaGrads]
  refine foldl_inv (fun p : Vector DIM × ℚ => 0 ≤ p.2) _ ?_ _ _
    (foldl_inv (fun p : Vector DIM × ℚ => 0 ≤ p.2) _ ?_ _ _ (le_refl 0))
  · intro p c hp
    exact add_nonneg hp (normSq_nonneg _)
  · intro p c hp
    exact add_nonneg hp (normSq_nonneg _)

/-- The Gram denominator of compute_alphas is nonnegative. -/
theorem alphaDen_nonneg {DIM : ℕ} (ffC fbC : Contacts DIM) (fluids : List (Fluid DIM))
    (bs : List (Boundary DIM)) (a i : ℕ) : 0 ≤ alphaDen ffC fbC fluids bs a i :=
  add_nonneg (alphaGrads_snd_nonneg ffC fbC fluids bs a i) (normSq_nonneg _)

/-- C2: for every fluid particle (a, i), compute_alphas writes
    alpha[a][i] = 0 when the Gram denominator D is at most 1e-6 and 1/D
    otherwise, and the written alpha is nonnegative. -/
theorem compute_alphas_gram_reciprocal_nonneg {DIM : ℕ} (ffC fbC : Contacts DIM)
    (fluids : List (Fluid DIM)) (bs : List (Boundary DIM)) (s : DFSPHSolver DIM)
    {a i : ℕ} (ha : a < fluids.length)
    (hi : i < ((s.alphas.getD a []).length)) :
    lookup2 (compute_alphas ffC fbC fluids bs s).alphas a i 0 =
      (if alphaDen ffC fbC fluids bs a i ≤ 1 / 1000000 then 0
       else 1 / alphaDen ffC fbC fluids bs a i) ∧
      0 ≤ lookup2 (compute_alphas ffC fbC fluids bs s).alphas a i 0 := by
  have hval : lookup2 (compute_alphas ffC fbC fluids bs s).alphas a i 0 =
      alpha1 ffC fbC fluids bs a i := by
    show lookup2 (overwriteFold (alpha1 ffC fbC fluids bs) fluids.length s.alphas) a i 0 = _
    unfold lookup2
    rw [owf_getD _ _ _ _ ha, getD_map_range _ hi]
  refine ⟨by rw [hval]; rfl, ?_⟩
  rw [hval]
  unfold alpha1
  by_cases hD : alphaDen ffC fbC fluids bs a i ≤ 1 / 1000000
  · rw [if_pos hD]
  · rw [if_neg hD]
    exact le_of_lt (one_div_pos.mpr (lt_trans (by norm_num) (not_le.mp hD)))

/-- The per-particle error of compute_predicted_densities is the positive
    part of the scaled density excess, provided the rest density is
    positive. -/
theorem predError1_eq_max {DIM : ℕ} (t : TimestepManager) (ffC fbC : Contacts DIM)
    (fluids : List (Fluid DIM)) (bs : List (Boundary DIM)) (dens : List (List ℚ))
    (vcs : List (List (Vector DIM))) (a i : ℕ)
    (hρ : 0 < (fluids.getD a default).density0) :
    predError1 t ffC fbC fluids bs dens vcs a i =
      max 0 (predDensity1 t ffC fbC fluids bs dens vcs a i /
        (fluids.getD a default).density0 - 1) := by
  unfold predError1
  by_cases h : predDensity1 t ffC fbC fluids bs dens vcs a i < (fluids.getD a default).density0
  · rw [if_pos h, eq_comm]
    apply max_eq_left
    have hlt : predDensity1 t ffC fbC fluids bs dens vcs a i /
        (fluids.getD a default).density0 < 1 := (div_lt_one hρ).mpr h
    linarith
  · rw [if_neg h, eq_comm]
    apply max_eq_right
    have hge : (1 : ℚ) ≤ predDensity1 t ffC fbC fluids bs dens vcs a i /
        (fluids.getD a default).density0 := by
      rw [le_div_iff₀ hρ]
      have := not_lt.mp h
      linarith
    linarith

/-- The spec-side per-fluid error is nonnegative. -/
theorem specFluidDensityError_nonneg {DIM : ℕ} (t : TimestepManager)
    (ffC fbC : Contacts DIM) (fluids : List (Fluid DIM)) (bs : List (Boundary DIM))
    (dens : List (List ℚ)) (vcs : List (List (Vector DIM))) (a : ℕ) :
    0 ≤ specFluidDensityError t ffC fbC fluids bs dens vcs a := by
  unfold specFluidDensityError
  apply div_nonneg
  · apply list_sum_nonneg
    intro x hx
    rcases List.mem_map.mp hx with ⟨i, _, rfl⟩
    exact le_max_left 0 _
  · exact Nat.cast_nonneg _

/-- C1: the value returned by compute_predicted_densities is the maximum,
    over the fluids, of the mean over that fluid of the per-particle
    errors max(0, predicted density / rest density - 1).  The hypotheses
    are the buffer-length invariant, nonempty fluids, and positive rest
    densities. -/
theorem compute_predicted_densities_reports_max_mean_error {DIM : ℕ}
    (t : TimestepManager) (ffC fbC : Contacts DIM) (fluids : List (Fluid DIM))
    (bs : List (Boundary DIM)) (s : DFSPHSolver DIM)
    (hne : fluids ≠ [])
    (hρ : ∀ f ∈ fluids, 0 < f.density0)
    (hn : ∀ f ∈ fluids, f.num_particles ≠ 0)
    (hlen : ∀ a, a < fluids.length →
      ((s.predicted_densities.getD a []).length) = (fluids.getD a default).num_particles) :
    (compute_predicted_densities t ffC fbC fluids bs s).2 =
      listMax ((List.range fluids.length).map
        (specFluidDensityError t ffC fbC fluids bs s.densities s.velocity_changes)) := by
  have h2 : (compute_predicted_densities t ffC fbC fluids bs s).2 =
      (List.range fluids.length).foldl
        (fun m a =>
          errStep (predError1 t ffC fbC fluids bs s.densities s.velocity_changes)
            (fun a => (fluids.getD a default).num_particles)
            ((s.predicted_densities.getD a []).length) m a) 0 := by
    show (overwriteFoldErr _ _ _ _ _).2 = _
    exact ofe_snd_eq _ _ _ _ _
  rw [h2]
  have hcong : ∀ a ∈ List.range fluids.length, ∀ m : ℚ,
      errStep (predError1 t ffC fbC fluids bs s.densities s.velocity_changes)
        (fun a => (fluids.getD a default).num_particles)
        ((s.predicted_densities.getD a []).length) m a =
      max m (specFluidDensityError t ffC fbC fluids bs s.densities s.velocity_changes a) := by
    intro a ha m
    rw [List.mem_range] at ha
    have hf : fluids.getD a default ∈ fluids := by
      rw [getD_lt _ ha]
      exact List.get_mem _ _ _
    unfold errStep
    rw [if_pos (hn _ hf)]
    congr 1
    unfold specFluidDensityError
    rw [hlen a ha]
    congr 2
    apply List.map_congr_left
    intro i _
    exact predError1_eq_max t ffC fbC fluids bs s.densities s.velocity_changes a i (hρ _ hf)
  rw [foldl_congr2 _ _ _ hcong 0]
  rw [show (List.range fluids.length).foldl
      (fun m a => max m
        (specFluidDensityError t ffC fbC fluids bs s.densities s.velocity_changes a)) 0 =
      ((List.range fluids.length).map
        (specFluidDensityError t ffC fbC fluids bs s.densities s.velocity_changes)).foldl
        max 0 from (foldl_map2 _ _ _ 0).symm]
  apply foldl_max_zero
  · intro hcon
    rw [List.map_eq_nil_iff, List.range_eq_nil, List.length_eq_zero] at hcon
    exact hne hcon
  · intro x hx
    rcases List.mem_map.mp hx with ⟨a, _, rfl⟩
    exact specFluidDensityError_nonneg t ffC fbC fluids bs s.densities s.velocity_changes a

/-- Folding a step function that fixes the accumulator on the elements of
    the list. -/
theorem foldl_fix_mem {α β : Type} (step : β → α → β) :
    ∀ (l : List α), (∀ x ∈ l, ∀ b, step b x = b) → ∀ b, l.foldl step b = b
  | [], _, _ => rfl
  | x :: xs, h, b => by
      rw [List.foldl_cons, h x (by simp) b]
      exact foldl_fix_mem step xs (fun y hy b2 => h y (by simp [hy]) b2) b

/-- The stiffness coefficient ki of the constant-density update is
    nonpositive whenever no particle is compressed and the alphas are
    nonnegative. -/
theorem ki_nonpos {DIM : ℕ} (fluids : List (Fluid DIM)) (alphas pds : List (List ℚ))
    (hpd : ∀ b j, lookup2 pds b j 0 ≤ (fluids.getD b default).density0)
    (hα : ∀ b j, 0 ≤ lookup2 alphas b j 0) (b j : ℕ) :
    (lookup2 pds b j 0 - (fluids.getD b default).density0) * lookup2 alphas b j 0 ≤ 0 :=
  mul_nonpos_iff.mpr (Or.inr ⟨sub_nonpos.mpr (hpd b j), hα b j⟩)

/-- Without compression the fluid-fluid coupling is inert. -/
theorem cvcFFCouple_id {DIM : ℕ} (t : TimestepManager) (fluids : List (Fluid DIM))
    (alphas pds : List (List ℚ)) {ki : ℚ} (hki : ki ≤ 0)
    (hpd : ∀ b j, lookup2 pds b j 0 ≤ (fluids.getD b default).density0)
    (hα : ∀ b j, 0 ≤ lookup2 alphas b j 0) (vc : Vector DIM) (c : Contact DIM) :
    cvcFFCouple t fluids alphas pds ki vc c = vc := by
  unfold cvcFFCouple
  dsimp only
  rw [max_eq_right hki, max_eq_right (ki_nonpos fluids alphas pds hpd hα c.j_model c.j)]
  norm_num

/-- Without compression a particle of the constant-density update changes
    nothing. -/
theorem cvcParticle_id {DIM : ℕ} (t : TimestepManager) (ffC fbC : Contacts DIM)
    (fluids : List (Fluid DIM)) (alphas pds : List (List ℚ)) (a i : ℕ)
    (vc0 : Vector DIM) (bs : List (Boundary DIM))
    (hpd : ∀ b j, lookup2 pds b j 0 ≤ (fluids.getD b default).density0)
    (hα : ∀ b j, 0 ≤ lookup2 alphas b j 0) :
    cvcParticle t ffC fbC fluids alphas pds a i vc0 bs = (vc0, bs) := by
  unfold cvcParticle
  dsimp only
  have hki := ki_nonpos fluids alphas pds hpd hα a i
  rw [foldl_fix _ (cvcFFCouple_id t fluids alphas pds hki hpd hα) _ vc0,
    if_neg (not_lt.mpr hki)]

/-- Without compression the per-fluid pass of the constant-density update
    changes nothing. -/
theorem cvcFluid_id {DIM : ℕ} (t : TimestepManager) (ffC fbC : Contacts DIM)
    (fluids : List (Fluid DIM)) (alphas pds : List (List ℚ)) (a : ℕ)
    (acc : List (List (Vector DIM)) × List (Boundary DIM))
    (hpd : ∀ b j, lookup2 pds b j 0 ≤ (fluids.getD b default).density0)
    (hα : ∀ b j, 0 ≤ lookup2 alphas b j 0) :
    cvcFluid t ffC fbC fluids alphas pds a acc = acc := by
  unfold cvcFluid
  dsimp only
  have hinner : ∀ (l : List ℕ) (p : List (Vector DIM) × List (Boundary DIM)),
      l.foldl (fun acc2 i =>
        ((acc2.1.set i
            (cvcParticle t ffC fbC fluids alphas pds a i (acc2.1.getD i 0) acc2.2).1),
          (cvcParticle t ffC fbC fluids alphas pds a i (acc2.1.getD i 0) acc2.2).2)) p =
        p := by
    intro l
    apply foldl_fix
    intro p i
    rw [cvcParticle_id t ffC fbC fluids alphas pds a i _ _ hpd hα]
    dsimp only
    rw [set_getD_self]
  rw [hinner]
  dsimp only
  rw [set_getD_self]

/-- C3: if every fluid particle predicted density is at most its rest
    density, and the alphas are nonnegative (as compute_alphas leaves
    them), one call to compute_velocity_changes returns the solver state
    and the boundaries unchanged: zero velocity change and no deposited
    force. -/
theorem compute_velocity_changes_no_compression {DIM : ℕ} (t : TimestepManager)
    (ffC fbC : Contacts DIM) (fluids : List (Fluid DIM)) (bs : List (Boundary DIM))
    (s : DFSPHSolver DIM)
    (hpd : ∀ b j, lookup2 s.predicted_densities b j 0 ≤ (fluids.getD b default).density0)
    (hα : ∀ b j, 0 ≤ lookup2 s.alphas b j 0) :
    compute_velocity_changes t ffC fbC fluids bs s = (s, bs) := by
  unfold compute_velocity_changes
  dsimp only
  rw [foldl_fix _ (fun acc a => cvcFluid_id t ffC fbC fluids s.alphas
    s.predicted_densities a acc hpd hα) _ _]

/-- Mapping through listModify is invisible to observations that the
    modification preserves. -/
theorem listModify_map {α β : Type} (f : α → α) (g : α → β) (h : ∀ x, g (f x) = g x) :
    ∀ (n : ℕ) (l : List α), (listModify f n l).map g = l.map g
  | n, [] => by cases n <;> rfl
  | 0, x :: xs => by simp [listModify, h]
  | n + 1, x :: xs => by
      show (x :: listModify f n xs).map g = _
      simp [listModify_map f g h n xs]

theorem applyForceAt_shape {DIM : ℕ} {bs0 bs : List (Boundary DIM)} (bmodel j : ℕ)
    (f : Vector DIM) (h : BdyShape bs0 bs) :
    BdyShape bs0 (applyForceAt bs bmodel j f) := by
  unfold applyForceAt
  exact ⟨(listModify_map (fun b => b.apply_force j f) (fun b => b.velocities)
      (fun b => rfl) bmodel bs).trans h.1,
    (listModify_map (fun b => b.apply_force j f) (fun b => b.volumes)
      (fun b => rfl) bmodel bs).trans h.2⟩

theorem cvcParticle_shape {DIM : ℕ} (t : TimestepManager) (ffC fbC : Contacts DIM)
    (fluids : List (Fluid DIM)) (alphas pds : List (List ℚ)) (a i : ℕ)
    (vc0 : Vector DIM) {bs0 bs : List (Boundary DIM)} (h : BdyShape bs0 bs) :
    BdyShape bs0 (cvcParticle t ffC fbC fluids alphas pds a i vc0 bs).2 := by
  unfold cvcParticle
  dsimp only
  split
  · refine foldl_inv (fun acc : Vector DIM × List (Boundary DIM) => BdyShape bs0 acc.2)
      _ ?_ _ _ h
    intro p c hp
    unfold cvcBdyStep
    exact applyForceAt_shape _ _ _ hp
  · exact h

theorem cvcdParticle_shape {DIM : ℕ} (t : TimestepManager) (ffC fbC : Contacts DIM)
    (fluids : List (Fluid DIM)) (alphas divs : List (List ℚ)) (a i : ℕ)
    (vc0 : Vector DIM) {bs0 bs : List (Boundary DIM)} (h : BdyShape bs0 bs) :
    BdyShape bs0 (cvcdParticle t ffC fbC fluids alphas divs a i vc0 bs).2 := by
  unfold cvcdParticle
  dsimp only
  refine foldl_inv (fun acc : Vector DIM × List (Boundary DIM) => BdyShape bs0 acc.2)
    _ ?_ _ _ h
  intro p c hp
  unfold cvcdBdyStep
  exact applyForceAt_shape _ _ _ hp

theorem compute_velocity_changes_shape {DIM : ℕ} (t : TimestepManager)
    (ffC fbC : Contacts DIM) (fluids : List (Fluid DIM)) (bs : List (Boundary DIM))
    (s : DFSPHSolver DIM) :
    BdyShape bs (compute_velocity_changes t ffC fbC fluids bs s).2 := by
  unfold compute_velocity_changes
  dsimp only
  refine foldl_inv
    (fun acc : List (List (Vector DIM)) × List (Boundary DIM) => BdyShape bs acc.2)
    _ ?_ _ _ ⟨rfl, rfl⟩
  intro acc a hacc
  unfold cvcFluid
  dsimp only
  refine foldl_inv
    (fun acc2 : List (Vector DIM) × List (Boundary DIM) => BdyShape bs acc2.2)
    _ ?_ _ _ hacc
  intro p i hp
  exact cvcParticle_shape t ffC fbC fluids s.alphas s.predicted_densities a i _ hp

/-- C9: compute_velocity_changes writes only the velocity_changes buffer
    and the boundary force sinks: the densities, predicted densities,
    alphas and divergences buffers, the solver options, and every boundary
    particle velocity and volume are unchanged (the fluids are taken
    immutably, so they cannot change). -/
theorem compute_velocity_changes_frame {DIM : ℕ} (t : TimestepManager)
    (ffC fbC : Contacts DIM) (fluids : List (Fluid DIM)) (bs : List (Boundary DIM))
    (s : DFSPHSolver DIM) :
    (compute_velocity_changes t ffC fbC fluids bs s).1.densities = s.densities ∧
    (compute_velocity_changes t ffC fbC fluids bs s).1.predicted_densities =
      s.predicted_densities ∧
    (compute_velocity_changes t ffC fbC fluids bs s).1.alphas = s.alphas ∧
    (compute_velocity_changes t ffC fbC fluids bs s).1.divergences = s.divergences ∧
    (compute_velocity_changes t ffC fbC fluids bs s).2.map (fun b => b.velocities) =
      bs.map (fun b => b.velocities) ∧
    (compute_velocity_changes t ffC fbC fluids bs s).2.map (fun b => b.volumes) =
      bs.map (fun b => b.volumes) :=
  ⟨rfl, rfl, rfl, rfl, (compute_velocity_changes_shape t ffC fbC fluids bs s).1,
    (compute_velocity_changes_shape t ffC fbC fluids bs s).2⟩

/-- C4: at every fluid-boundary contact, the deposited boundary force is
    the per-contact dv contribution scaled by the particle mass over dt,
    with the opposite sign: the constant-density update adds minus delta
    to dv and deposits plus delta m/dt, while the divergence update adds
    delta and deposits minus delta m/dt. -/
theorem boundary_force_matches_dv {DIM : ℕ} (t : TimestepManager)
    (ki vol density0 mass_i : ℚ) (grad : Vector DIM)
    (hdt : t.inv_dt = 1 / t.dt) :
    (pressureBoundaryContrib t ki vol density0 mass_i grad).2 =
      vscale (-(mass_i / t.dt)) (pressureBoundaryContrib t ki vol density0 mass_i grad).1 ∧
    (divergenceBoundaryContrib t ki vol density0 mass_i grad).2 =
      vscale (-(mass_i / t.dt)) (divergenceBoundaryContrib t ki vol density0 mass_i grad).1 := by
  refine ⟨?_, ?_⟩
  · unfold pressureBoundaryContrib
    dsimp only
    funext k
    simp only [vscale, Pi.neg_apply]
    rw [hdt]
    ring
  · unfold divergenceBoundaryContrib
    dsimp only
    funext k
    simp only [vscale, Pi.neg_apply]
    rw [hdt]
    ring

/-- C5: both solver loops are bounded by their caps no matter the
    tolerances, and a divergence iteration breaks exactly when the error
    from compute_divergences is at most max_divergence_error (1/dt) 0.01
    and at least min_divergence_iter iterations have completed. -/
theorem solver_loops_bounded_and_break {DIM : ℕ} (t : TimestepManager)
    (ffC fbC : Contacts DIM) (fluids : List (Fluid DIM)) (bs : List (Boundary DIM))
    (s : DFSPHSolver DIM) (hdt : t.inv_dt = 1 / t.dt) :
    (divergence_solve t ffC fbC fluids bs s).2.2.1 ≤ s.max_divergence_iter ∧
    (pressure_solve t ffC fbC fluids bs s).2.2.1 ≤ s.max_pressure_iter ∧
    (∀ (s1 : DFSPHSolver DIM) (bs1 : List (Boundary DIM)) (i fuel cnt : ℕ),
      divergenceLoop t ffC fbC fluids s1 bs1 i (fuel + 1) cnt =
        if (compute_divergences ffC fbC fluids bs1 s1).2 ≤
            s1.max_divergence_error * (1 / t.dt) * (1 / 100) ∧
            s1.min_divergence_iter ≤ i then
          ((compute_divergences ffC fbC fluids bs1 s1).1, bs1, cnt + 1, true)
        else
          divergenceLoop t ffC fbC fluids
            (compute_velocity_changes_for_divergence t ffC fbC fluids bs1
              (compute_divergences ffC fbC fluids bs1 s1).1).1
            (compute_velocity_changes_for_divergence t ffC fbC fluids bs1
              (compute_divergences ffC fbC fluids bs1 s1).1).2 (i + 1) fuel (cnt + 1)) := by
  refine ⟨?_, ?_, ?_⟩
  · have h := (divergenceLoop_cnt t ffC fbC fluids s.max_divergence_iter s bs 0 0).1
    simpa using h
  · have h := (pressureLoop_cnt t ffC fbC fluids s.max_pressure_iter s bs 0 0).1
    simpa using h
  · intro s1 bs1 i fuel cnt
    rw [← hdt]
    simp only [divergenceLoop]
    rfl

/-- C7: compute_divergences zeroes the divergence of every particle whose
    fluid plus boundary neighbor count is under the
    min_neighbors_for_divergence_solve threshold (which DFSPHSolver::new
    sets to 6 in 2D and 20 otherwise), and such particles contribute
    nothing to the per-fluid error sum: the sum ranges only over the
    gated-in particles. -/
theorem compute_divergences_neighbor_gate {DIM : ℕ} (ffC fbC : Contacts DIM)
    (fluids : List (Fluid DIM)) (bs : List (Boundary DIM)) (s : DFSPHSolver DIM) :
    ((DFSPHSolver.new DIM).min_neighbors_for_divergence_solve =
      if DIM = 2 then 6 else 20) ∧
    (∀ a i, a < fluids.length → i < (s.divergences.getD a []).length →
      divNeighborCount ffC fbC a i < s.min_neighbors_for_divergence_solve →
      lookup2 (compute_divergences ffC fbC fluids bs s).1.divergences a i 0 = 0) ∧
    (∀ a len, ((List.range len).map
        (divErr1 ffC fbC fluids bs s.velocity_changes
          s.min_neighbors_for_divergence_solve a)).sum =
      (((List.range len).filter (fun i =>
          decide (s.min_neighbors_for_divergence_solve ≤ divNeighborCount ffC fbC a i))).map
        (divErr1 ffC fbC fluids bs s.velocity_changes
          s.min_neighbors_for_divergence_solve a)).sum) := by
  refine ⟨rfl, ?_, ?_⟩
  · intro a i ha hi hcount
    have hbuf : (compute_divergences ffC fbC fluids bs s).1.divergences.getD a [] =
        (List.range ((s.divergences.getD a []).length)).map
          (divValue1 ffC fbC fluids bs s.velocity_changes
            s.min_neighbors_for_divergence_solve a) := by
      show (overwriteFoldErr _ _ _ _ _).1.getD a [] = _
      exact ofe_fst_getD _ _ _ _ _ _ ha
    unfold lookup2
    rw [hbuf, getD_map_range _ hi]
    unfold divValue1
    rw [if_pos hcount]
  · intro a len
    apply sum_map_filter_eq
    intro i _ hfalse
    have hcount : divNeighborCount ffC fbC a i < s.min_neighbors_for_divergence_solve := by
      have := of_decide_eq_false hfalse
      omega
    unfold divErr1
    rw [if_pos hcount]

/-- C10: the per-fluid mean of both error reductions is guarded by a
    nonzero particle count, so an empty fluid leaves the running error
    untouched, and when every fluid is empty both
    compute_predicted_densities and compute_divergences return 0. -/
theorem empty_fluids_error_zero {DIM : ℕ} (t : TimestepManager)
    (ffC fbC : Contacts DIM) (fluids : List (Fluid DIM)) (bs : List (Boundary DIM))
    (s : DFSPHSolver DIM) :
    ((∀ f ∈ fluids, f.num_particles = 0) →
      (compute_predicted_densities t ffC fbC fluids bs s).2 = 0 ∧
      (compute_divergences ffC fbC fluids bs s).2 = 0) ∧
    (∀ (g : ℕ → ℕ → ℚ) (np : ℕ → ℕ) (len : ℕ) (m : ℚ) (a : ℕ),
      np a = 0 → errStep g np len m a = m) := by
  have hstep : ∀ (g : ℕ → ℕ → ℚ) (np : ℕ → ℕ) (len : ℕ) (m : ℚ) (a : ℕ),
      np a = 0 → errStep g np len m a = m := by
    intro g np len m a h
    unfold errStep
    simp [h]
  refine ⟨?_, hstep⟩
  intro hempty
  have hnp : ∀ a ∈ List.range fluids.length,
      (fluids.getD a default).num_particles = 0 := by
    intro a ha
    rw [List.mem_range] at ha
    have hf : fluids.getD a default ∈ fluids := by
      rw [getD_lt _ ha]
      exact List.get_mem _ _ _
    exact hempty _ hf
  constructor
  · have h2 : (compute_predicted_densities t ffC fbC fluids bs s).2 =
        (List.range fluids.length).foldl
          (fun m a =>
            errStep (predError1 t ffC fbC fluids bs s.densities s.velocity_changes)
              (fun a => (fluids.getD a default).num_particles)
              ((s.predicted_densities.getD a []).length) m a) 0 := by
      show (overwriteFoldErr _ _ _ _ _).2 = _
      exact ofe_snd_eq _ _ _ _ _
    rw [h2]
    exact foldl_fix_mem _ _ (fun a ha m => hstep _ _ _ m a (hnp a ha)) 0
  · have h2 : (compute_divergences ffC fbC fluids bs s).2 =
        (List.range fluids.length).foldl
          (fun m a =>
            errStep (divErr1 ffC fbC fluids bs s.velocity_changes
                s.min_neighbors_for_divergence_solve)
              (fun a => (fluids.getD a default).num_particles)
              ((s.divergences.getD a []).length) m a) 0 := by
      show (overwriteFoldErr _ _ _ _ _).2 = _
      exact ofe_snd_eq _ _ _ _ _
    rw [h2]
    exact foldl_fix_mem _ _ (fun a ha m => hstep _ _ _ m a (hnp a ha)) 0

/-- Reading any entry of a buffer family overwritten with a constant gives
    back the constant, with the same constant as default. -/
theorem lookup2_map_const {α β : Type} (xs : List (List α)) (z : β) (a i : ℕ) :
    lookup2 (xs.map (fun vs => vs.map (fun _ => z))) a i z = z := by
  unfold lookup2
  induction xs generalizing a with
  | nil => rfl
  | cons l ls ih =>
    cases a with
    | zero => exact getD_map_const l i z
    | succ a => exact ih a

/-- C6 (amended): inside step, the divergence-solve dv is folded into the
    velocities by update_velocities and the dv buffers are zeroed right
    before the non-pressure-force phase, so that phase always starts from
    dv = 0.  (The dv accumulated afterwards - integrated accelerations and
    pressure corrections - is still in the buffers when step returns, and
    is only folded into the velocities by the next step.) -/
theorem step_dv_zero_before_advection {DIM : ℕ} (t : TimestepManager)
    (ffC fbC : Contacts DIM) (fluids : List (Fluid DIM)) (bs : List (Boundary DIM))
    (s : DFSPHSolver DIM) :
    (∀ a i, lookup2 (stepPreAdvect t ffC fbC fluids bs s).1.velocity_changes a i
      (0 : Vector DIM) = 0) ∧
    (stepPreAdvect t ffC fbC fluids bs s).2.1 =
      update_velocities (divergence_solve t ffC fbC fluids bs
        (compute_alphas ffC fbC fluids bs s)).1 fluids := by
  refine ⟨?_, rfl⟩
  intro a i
  exact lookup2_map_const _ _ a i

/-- C8 (amended): with max_pressure_iter = 3 the pressure solve evaluates
    the predicted densities at most 3 times, and exactly 3 times when the
    tolerance test never breaks the loop early; the loop stops at the cap
    with no extra final evaluation. -/
theorem pressure_solve_eval_count {DIM : ℕ} (t : TimestepManager)
    (ffC fbC : Contacts DIM) (fluids : List (Fluid DIM)) (bs : List (Boundary DIM))
    (s : DFSPHSolver DIM) (hmax : s.max_pressure_iter = 3) :
    (pressure_solve t ffC fbC fluids bs s).2.2.1 ≤ 3 ∧
    ((pressure_solve t ffC fbC fluids bs s).2.2.2 = false →
      (pressure_solve t ffC fbC fluids bs s).2.2.1 = 3) := by
  have h := pressureLoop_cnt t ffC fbC fluids s.max_pressure_iter s bs 0 0
  unfold pressure_solve
  rw [hmax] at h ⊢
  simpa using h

/-- Reading a singleton list. -/
theorem getD_single {α : Type} (x d : α) (b : ℕ) :
    [x].getD b d = if b = 0 then x else d := by
  cases b with
  | zero => rfl
  | succ b =>
    rw [getD_oob _ (by simp)]
    simp

/-- Reading a one-entry buffer family. -/
theorem lookup2_single {α : Type} (x d : α) (b j : ℕ) :
    lookup2 [[x]] b j d = if b = 0 ∧ j = 0 then x else d := by
  unfold lookup2
  rw [getD_single]
  by_cases hb : b = 0
  · rw [if_pos hb, getD_single]
    by_cases hj : j = 0
    · rw [if_pos hj, if_pos ⟨hb, hj⟩]
    · rw [if_neg hj, if_neg (fun h => hj h.2)]
  · rw [if_neg hb, if_neg (fun h => hb h.1), getD_oob _ (by simp)]

/-- The default fluid has rest density zero. -/
theorem default_fluid_density0 {DIM : ℕ} : (default : Fluid DIM).density0 = 0 := rfl

theorem ex_alphas : compute_alphas exContacts exContacts [exFluid] [] exSolverRest = exSolverRest := by
  norm_num [compute_alphas, overwriteFold, alpha1, alphaDen, alphaGrads, normSq, vdot, pcs,
    exContacts, exSolverRest, exFluid, DFSPHSolver.new, List.range_succ, List.foldl_append,
    List.getD, Fin.sum_univ_two]

theorem ex_div : compute_divergences exContacts exContacts [exFluid] [] exSolverRest = (exSolverRest, 0) := by
  norm_num [compute_divergences, overwriteFoldErr, errStep, divErr1, divValue1, divRaw,
    divNeighborCount, pcs, lookup2, exContacts, exSolverRest, exFluid, DFSPHSolver.new,
    Fluid.num_particles, List.range_succ, List.foldl_append, List.getD]

theorem ex_cvcd : compute_velocity_changes_for_divergence exTM exContacts exContacts [exFluid] [] exSolverRest = (exSolverRest, []) := by
  norm_num [compute_velocity_changes_for_divergence, cvcdFluid, cvcdParticle, cvcdFFCouple,
    cvcdBdyStep, pcs, lookup2, exContacts, exSolverRest, exFluid, exTM, DFSPHSolver.new,
    List.range_succ, List.foldl_append, List.getD]

theorem ex_cpd : compute_predicted_densities exTM exContacts exContacts [exFluid] [] exSolverRest = (exSolverRestP, 0) := by
  norm_num [compute_predicted_densities, overwriteFoldErr, errStep, predError1, predDensity1,
    pcs, lookup2, exContacts, exSolverRest, exSolverRestP, exFluid, exTM, DFSPHSolver.new,
    Fluid.num_particles, List.range_succ, List.foldl_append, List.getD]

theorem ex_cvc : compute_velocity_changes exTM exContacts exContacts [exFluid] [] exSolverRestP = (exSolverRestP, []) := by
  norm_num [compute_velocity_changes, cvcFluid, cvcParticle, cvcFFCouple, cvcBdyStep,
    pcs, lookup2, exContacts, exSolverRest, exSolverRestP, exFluid, exTM, DFSPHSolver.new,
    List.range_succ, List.foldl_append, List.getD]

theorem ex_dsolve : divergence_solve exTM exContacts exContacts [exFluid] [] exSolverRest = (exSolverRest, [], 2, true) := by
  show divergenceLoop exTM exContacts exContacts [exFluid] exSolverRest [] 0 50 0 = _
  rw [show (50:ℕ) = 49 + 1 from rfl,
    divergenceLoop_go ex_div (by norm_num [exSolverRest, DFSPHSolver.new, exTM])]
  simp only [ex_cvcd]
  rw [show (49:ℕ) = 48 + 1 from rfl,
    divergenceLoop_break ex_div (by norm_num [exSolverRest, DFSPHSolver.new, exTM])]

theorem ex_upv : update_velocities exSolverRest [exFluid] = [exFluid] := by
  norm_num [update_velocities, zipWithKeep, exSolverRest, exFluid, DFSPHSolver.new]

theorem ex_clear : clear_velocity_changes exSolverRest = exSolverRest := by
  norm_num [clear_velocity_changes, exSolverRest, DFSPHSolver.new]

theorem ex_padv : predict_advection exGravity (fun _ f => f) exContacts exContacts exSolverRest.densities [exFluid] = [exFluidG] := by
  norm_num [predict_advection, listMapIdxFrom, exContacts, exSolverRest, exFluid, exFluidG,
    DFSPHSolver.new]

theorem vscale_one {DIM : ℕ} (v : Vector DIM) : vscale 1 v = v := by
  funext k
  simp [vscale]

theorem ex_integrate : integrate_and_clear_accelerations exTM exSolverRest [exFluidG] = (exSolverRestG, [exFluid]) := by
  norm_num [integrate_and_clear_accelerations, zipWithKeep, vscale_one, exTM, exSolverRest,
    exSolverRestG, exFluid, exFluidG, DFSPHSolver.new]

theorem ex_cpdG : compute_predicted_densities exTM exContacts exContacts [exFluid] [] exSolverRestG = (exSolverRestGP, 0) := by
  norm_num [compute_predicted_densities, overwriteFoldErr, errStep, predError1, predDensity1,
    pcs, lookup2, exContacts, exSolverRest, exSolverRestG, exSolverRestGP, exFluid, exTM,
    DFSPHSolver.new, Fluid.num_particles, List.range_succ, List.foldl_append, List.getD]

theorem ex_cpdG2 : compute_predicted_densities exTM exContacts exContacts [exFluid] [] exSolverRestGP = (exSolverRestGP, 0) := by
  norm_num [compute_predicted_densities, overwriteFoldErr, errStep, predError1, predDensity1,
    pcs, lookup2, exContacts, exSolverRest, exSolverRestG, exSolverRestGP, exFluid, exTM,
    DFSPHSolver.new, Fluid.num_particles, List.range_succ, List.foldl_append, List.getD]

theorem ex_cvcG : compute_velocity_changes exTM exContacts exContacts [exFluid] [] exSolverRestGP = (exSolverRestGP, []) := by
  norm_num [compute_velocity_changes, cvcFluid, cvcParticle, cvcFFCouple, cvcBdyStep,
    pcs, lookup2, exContacts, exSolverRest, exSolverRestG, exSolverRestGP, exFluid, exTM,
    DFSPHSolver.new, List.range_succ, List.foldl_append, List.getD]

theorem ex_psolveG : pressure_solve exTM exContacts exContacts [exFluid] [] exSolverRestG = (exSolverRestGP, [], 2, true) := by
  show pressureLoop exTM exContacts exContacts [exFluid] exSolverRestG [] 0 50 0 = _
  rw [show (50:ℕ) = 49 + 1 from rfl,
    pressureLoop_go ex_cpdG (by norm_num [exSolverRestGP, exSolverRestG, exSolverRest, DFSPHSolver.new])]
  simp only [ex_cvcG]
  rw [show (49:ℕ) = 48 + 1 from rfl,
    pressureLoop_break ex_cpdG2 (by norm_num [exSolverRestGP, exSolverRestG, exSolverRest, DFSPHSolver.new])]

theorem ex_step_solver :
    (step exTM (fun t _ => t) (fun _ f => f) exGravity exContacts exContacts [exFluid] [] exSolverRest).1 = exSolverRestGP := by
  unfold step stepPreAdvect
  simp only [ex_alphas, ex_dsolve, ex_clear, ex_upv, ex_padv, ex_integrate, ex_psolveG]

theorem ex_c8_cpd : compute_predicted_densities exTM exContacts exContacts [exFluid] [] exSolverC8 = (exSolverC8P, 1) := by
  norm_num [compute_predicted_densities, overwriteFoldErr, errStep, predError1, predDensity1,
    pcs, lookup2, exContacts, exSolverC8, exSolverC8P, exFluid, exTM, DFSPHSolver.new,
    Fluid.num_particles, List.range_succ, List.foldl_append, List.getD]

theorem ex_c8_cpd2 : compute_predicted_densities exTM exContacts exContacts [exFluid] [] exSolverC8P = (exSolverC8P, 1) := by
  norm_num [compute_predicted_densities, overwriteFoldErr, errStep, predError1, predDensity1,
    pcs, lookup2, exContacts, exSolverC8, exSolverC8P, exFluid, exTM, DFSPHSolver.new,
    Fluid.num_particles, List.range_succ, List.foldl_append, List.getD]

theorem ex_c8_cvc : compute_velocity_changes exTM exContacts exContacts [exFluid] [] exSolverC8P = (exSolverC8P, []) := by
  norm_num [compute_velocity_changes, cvcFluid, cvcParticle, cvcFFCouple, cvcBdyStep,
    pcs, lookup2, exContacts, exSolverC8, exSolverC8P, exFluid, exTM, DFSPHSolver.new,
    List.range_succ, List.foldl_append, List.getD]

/-- Concrete evaluation of the pressure solve of scenario S5: on the
    compressed one-particle state the loop runs its three iterations and
    never breaks. -/
theorem pressure_solve_c8_eval : pressure_solve exTM exContacts exContacts [exFluid] [] exSolverC8 = (exSolverC8P, [], 3, false) := by
  have hc : ∀ i : ℕ,
      ¬((1:ℚ) ≤ exSolverC8P.max_density_error ∧ exSolverC8P.min_pressure_iter ≤ i) := by
    intro i h
    norm_num [exSolverC8P, exSolverC8, DFSPHSolver.new] at h
  have h1 : pressureLoop exTM exContacts exContacts [exFluid] exSolverC8 [] 0 3 0 =
      pressureLoop exTM exContacts exContacts [exFluid] exSolverC8P [] 1 2 1 := by
    have h := @pressureLoop_go 2 exTM exContacts exContacts [exFluid] exSolverC8 [] 0 2 0
      exSolverC8P 1 ex_c8_cpd (hc 0)
    simpa [ex_c8_cvc] using h
  have h2 : pressureLoop exTM exContacts exContacts [exFluid] exSolverC8P [] 1 2 1 =
      pressureLoop exTM exContacts exContacts [exFluid] exSolverC8P [] 2 1 2 := by
    have h := @pressureLoop_go 2 exTM exContacts exContacts [exFluid] exSolverC8P [] 1 1 1
      exSolverC8P 1 ex_c8_cpd2 (hc 1)
    simpa [ex_c8_cvc] using h
  have h3 : pressureLoop exTM exContacts exContacts [exFluid] exSolverC8P [] 2 1 2 =
      pressureLoop exTM exContacts exContacts [exFluid] exSolverC8P [] 3 0 3 := by
    have h := @pressureLoop_go 2 exTM exContacts exContacts [exFluid] exSolverC8P [] 2 0 2
      exSolverC8P 1 ex_c8_cpd2 (hc 2)
    simpa [ex_c8_cvc] using h
  show pressureLoop exTM exContacts exContacts [exFluid] exSolverC8 [] 0 3 0 = _
  rw [h1, h2, h3]
  rfl

/-- C8 counterexample: on a non-trivial configuration (the density error
    is positive at every iteration) with max_pressure_iter = 3 and
    max_density_error = 0, the pressure solve performs exactly 3
    evaluations of the predicted-density evaluator, not 3 + 1 = 4. -/
theorem pressure_solve_not_four_evals :
    0 < (compute_predicted_densities exTM exContacts exContacts [exFluid] [] exSolverC8).2 ∧
    (pressure_solve exTM exContacts exContacts [exFluid] [] exSolverC8).2.2.1 = 3 ∧
    (pressure_solve exTM exContacts exContacts [exFluid] [] exSolverC8).2.2.1 ≠ 4 := by
  refine ⟨?_, ?_, ?_⟩
  · rw [ex_c8_cpd]
    norm_num
  · rw [pressure_solve_c8_eval]
  · rw [pressure_solve_c8_eval]
    norm_num

/-- C6 counterexample: one step on a one-particle fluid under unit
    gravity ends with the velocity_changes entry equal to gravity times
    dt, which is nonzero, so the step does not end having folded all of
    dv into the velocities and the next step does not begin at dv = 0. -/
theorem step_ends_with_nonzero_dv :
    lookup2 (step exTM (fun t _ => t) (fun _ f => f) exGravity exContacts exContacts
      [exFluid] [] exSolverRest).1.velocity_changes 0 0 (0 : Vector 2) (0 : Fin 2) = 1 ∧
    lookup2 (step exTM (fun t _ => t) (fun _ f => f) exGravity exContacts exContacts
      [exFluid] [] exSolverRest).1.velocity_changes 0 0 (0 : Vector 2) ≠ 0 := by
  have h1 : lookup2 (step exTM (fun t _ => t) (fun _ f => f) exGravity exContacts exContacts
      [exFluid] [] exSolverRest).1.velocity_changes 0 0 (0 : Vector 2) = exGravity := by
    rw [ex_step_solver]
    norm_num [exSolverRestGP, exSolverRestG, exSolverRest, lookup2_single]
  refine ⟨by rw [h1]; rfl, ?_⟩
  rw [h1]
  intro h
  have h2 := congrFun h (0 : Fin 2)
  norm_num [exGravity] at h2

/-- Witness for C1 at a concrete one-particle configuration. -/
theorem c1_witness :
    (compute_predicted_densities exTM exContacts exContacts [exFluid] [] exSolverRest).2 =
      listMax ((List.range ([exFluid] : List (Fluid 2)).length).map
        (specFluidDensityError exTM exContacts exContacts [exFluid] []
          exSolverRest.densities exSolverRest.velocity_changes)) :=
  compute_predicted_densities_reports_max_mean_error exTM exContacts exContacts [exFluid] []
    exSolverRest (by simp)
    (by
      intro f hf
      rw [List.mem_singleton] at hf
      subst hf
      norm_num [exFluid])
    (by
      intro f hf
      rw [List.mem_singleton] at hf
      subst hf
      norm_num [exFluid, Fluid.num_particles])
    (by
      intro a ha
      have ha0 : a = 0 := by simpa using Nat.lt_one_iff.mp (by simpa using ha)
      subst ha0
      norm_num [exSolverRest, exFluid, Fluid.num_particles, DFSPHSolver.new])

/-- Witness for C2 at a concrete one-particle configuration. -/
theorem c2_witness :
    lookup2 (compute_alphas exContacts exContacts [exFluid] [] exSolverRest).alphas 0 0 0 =
      (if alphaDen exContacts exContacts [exFluid] [] 0 0 ≤ 1 / 1000000 then 0
       else 1 / alphaDen exContacts exContacts [exFluid] [] 0 0) ∧
      0 ≤ lookup2 (compute_alphas exContacts exContacts [exFluid] [] exSolverRest).alphas 0 0 0 :=
  compute_alphas_gram_reciprocal_nonneg exContacts exContacts [exFluid] [] exSolverRest
    (by simp) (by norm_num [exSolverRest, DFSPHSolver.new])

/-- Witness for C3: a resting particle at its rest density gets no
    velocity change and deposits no force. -/
theorem c3_witness :
    compute_velocity_changes exTM exContacts exContacts [exFluid] [] exSolverRest =
      (exSolverRest, []) :=
  compute_velocity_changes_no_compression exTM exContacts exContacts [exFluid] [] exSolverRest
    (by
      intro b j
      show lookup2 [[(0:ℚ)]] b j 0 ≤ _
      rw [lookup2_single]
      split
      · rename_i h
        rw [getD_single, if_pos h.1]
        norm_num [exFluid]
      · rw [getD_single]
        split
        · norm_num [exFluid]
        · rw [default_fluid_density0])
    (by
      intro b j
      show (0:ℚ) ≤ lookup2 [[(0:ℚ)]] b j 0
      rw [lookup2_single]
      split <;> norm_num)

/-- Witness for C4 at unit inputs. -/
theorem c4_witness :
    (pressureBoundaryContrib exTM 1 1 1 1 exGravity).2 =
      vscale (-(1 / exTM.dt)) (pressureBoundaryContrib exTM 1 1 1 1 exGravity).1 ∧
    (divergenceBoundaryContrib exTM 1 1 1 1 exGravity).2 =
      vscale (-(1 / exTM.dt)) (divergenceBoundaryContrib exTM 1 1 1 1 exGravity).1 :=
  boundary_force_matches_dv exTM 1 1 1 1 exGravity (by norm_num [exTM])

/-- Witness for C5: the divergence solve on a one-particle configuration
    stays within the iteration cap. -/
theorem c5_witness :
    (divergence_solve exTM exContacts exContacts [exFluid] [] exSolverRest).2.2.1 ≤
      exSolverRest.max_divergence_iter :=
  (solver_loops_bounded_and_break exTM exContacts exContacts [exFluid] [] exSolverRest
    (by norm_num [exTM])).1

/-- Witness for C7: an isolated particle is gated out and its divergence
    is written as zero. -/
theorem c7_witness :
    lookup2 (compute_divergences exContacts exContacts [exFluid] [] exSolverRest).1.divergences
      0 0 0 = 0 :=
  (compute_divergences_neighbor_gate exContacts exContacts [exFluid] [] exSolverRest).2.1 0 0
    (by simp) (by norm_num [exSolverRest, DFSPHSolver.new])
    (by norm_num [divNeighborCount, pcs, exContacts, exSolverRest, DFSPHSolver.new, List.getD])

/-- Witness for the amended C8: the concrete non-trivial configuration
    reaches exactly the cap of 3 evaluations. -/
theorem c8_witness :
    (pressure_solve exTM exContacts exContacts [exFluid] [] exSolverC8).2.2.1 ≤ 3 ∧
    (pressure_solve exTM exContacts exContacts [exFluid] [] exSolverC8).2.2.1 = 3 :=
  ⟨(pressure_solve_eval_count exTM exContacts exContacts [exFluid] [] exSolverC8 rfl).1,
   (pressure_solve_eval_count exTM exContacts exContacts [exFluid] [] exSolverC8 rfl).2
     (by rw [pressure_solve_c8_eval])⟩

/-- Witness for C10: a fluid with zero particles produces zero error in
    both reductions. -/
theorem c10_witness :
    (compute_predicted_densities exTM [] [] [exEmptyFluid] [] exSolverRest).2 = 0 ∧
    (compute_divergences [] [] [exEmptyFluid] [] exSolverRest).2 = 0 :=
  (empty_fluids_error_zero exTM [] [] [exEmptyFluid] [] exSolverRest).1
    (by
      intro f hf
      rw [List.mem_singleton] at hf
      subst hf
      rfl)

end DF
